import Mathlib

/-!
Verification of the simplified trading-agents pipeline.

A shallow embedding, in Lean 4, of the core logic of the repository:

* the evidence selector of `src/agent/news_analyst.py` (normalisation,
  deduplication, relevance scoring, filtering, ranking, capping);
* the structured-output extraction shared by the stage nodes
  (`market_analyst_v2.py`, `fundamentals_analyst_v2.py`, `bull_debater_v2.py`,
  `bear_debater_v2.py`, `supervisor_v2.py`), including the code-fence
  stripping of the raw-text tier and the per-stage static fallback records;
* the pydantic output schemas of every stage, embedded as structures over raw
  field types together with an executable validity predicate (`validb`),
  so that records violating their own schema are representable, exactly as a
  raw Python dict can be (pydantic *constructor* calls are modelled as a
  validity check that raises on failure; raw dict fallbacks bypass it);
* the linear five-node pipeline of `src/trading_graph.py` over the shared
  `TradingState` of `src/state.py`.

External effects (tool invocations, generative-model calls, the JSON parse of
`json.loads` feeding a pydantic constructor) are parameters ("oracles") of the
node functions: a node receives the outcome of each outbound call it makes and
is otherwise a pure function, mirroring the Python control flow branch by
branch.  Python floats are modelled as `ℚ`; Python strings as `String` (or
`List Char` where substring structure matters); `md5` keys as the hashed text
itself (the code uses md5 only as an injective fingerprint); exceptions as
`Except String`.
-/

/-! ## Text helpers

Python `str.strip()` (modelled on the ASCII whitespace characters this code
meets), `str.lower()`, and substring containment (`needle in haystack`). -/

/-- ASCII whitespace, the characters `str.strip()` removes in these inputs. -/
def isWsChar (c : Char) : Bool :=
  c = ' ' || c = '\t' || c = '\n' || c = '\r'

/-- Left half of Python `str.strip()`. -/
def ltrimChars (l : List Char) : List Char := l.dropWhile isWsChar

/-- Right half of Python `str.strip()`. -/
def rtrimChars (l : List Char) : List Char :=
  (l.reverse.dropWhile isWsChar).reverse

/-- Python `str.strip()` on a character list. -/
def trimChars (l : List Char) : List Char := rtrimChars (ltrimChars l)

/-- Python `str.lower()` on a character list. -/
def lowerChars (l : List Char) : List Char := l.map Char.toLower

/-- Python `needle in haystack` substring containment. -/
def isSub (p t : List Char) : Bool := decide (p <:+: t)

/-! ## Code-fence stripping (raw-text extraction tier) -/

/-- The backtick character. -/
def btick : Char := Char.ofNat 96

/-- A triple-backtick fence marker. -/
def fence3 : List Char := [btick, btick, btick]

/-- The marker with language tag, `"```json"`. -/
def fenceJson : List Char := fence3 ++ ['j', 's', 'o', 'n']

/-- Python `text[:-3]`. -/
def dropEnd3 (l : List Char) : List Char := l.take (l.length - 3)

/-- The markdown-fence cleaning of the raw-text extraction tier, as written in
`supervisor_v2.py` lines 308-316 (identical in `market_analyst_v2.py`,
`fundamentals_analyst_v2.py`, `bull_debater_v2.py`, `bear_debater_v2.py`):
strip, drop a leading `"```json"` (7 characters), then a leading `"```"`,
then a trailing `"```"`, then strip again. -/
def stripFencesV2 (t0 : List Char) : List Char :=
  let t1 := trimChars t0
  let t2 := if fenceJson.isPrefixOf t1 then t1.drop 7 else t1
  let t3 := if fence3.isPrefixOf t2 then t2.drop 3 else t2
  let t4 := if fence3.isSuffixOf t3 then dropEnd3 t3 else t3
  trimChars t4

/-- The same cleaning in `news_analyst.py` lines 451-457, which omits the
final strip (`json.loads` tolerates surrounding whitespace either way). -/
def stripFencesNews (t0 : List Char) : List Char :=
  let t1 := trimChars t0
  let t2 := if fenceJson.isPrefixOf t1 then t1.drop 7 else t1
  let t3 := if fence3.isPrefixOf t2 then t2.drop 3 else t2
  if fence3.isSuffixOf t3 then dropEnd3 t3 else t3

/-- A model response wrapped in a single pair of code fences, the opening
fence carrying language tag `tag` (claim C7's scenario shape). -/
def fenceWrap (tag : List Char) (s : List Char) : List Char :=
  (fence3 ++ tag) ++ ('\n' :: (s ++ ('\n' :: fence3)))

/-! ## Publish-timestamp parsing and the ranking order (news_analyst.py 240-250) -/

/-- The components of a naive Python `datetime`. -/
structure PyDateTime where
  year : Nat
  month : Nat
  day : Nat
  hour : Nat
  minute : Nat
  second : Nat
deriving DecidableEq

def isLeapYear (y : Nat) : Bool := (y % 4 = 0 && y % 100 ≠ 0) || y % 400 = 0

def daysInMonth (y m : Nat) : Nat :=
  if m = 2 then (if isLeapYear y then 29 else 28)
  else if m = 4 || m = 6 || m = 9 || m = 11 then 30
  else 31

def digitVal (c : Char) : Option Nat :=
  if c.isDigit then some (c.toNat - 48) else none

def digits2 (a b : Char) : Option Nat :=
  match digitVal a, digitVal b with
  | some x, some y => some (10 * x + y)
  | _, _ => none

def digits4 (a b c d : Char) : Option Nat :=
  match digits2 a b, digits2 c d with
  | some x, some y => some (100 * x + y)
  | _, _ => none

def validDate (y m d : Nat) : Bool :=
  1 ≤ y && y ≤ 9999 && 1 ≤ m && m ≤ 12 && 1 ≤ d && d ≤ daysInMonth y m

def validTime (h mi s : Nat) : Bool := h ≤ 23 && mi ≤ 59 && s ≤ 59

/-- Model of `datetime.fromisoformat`, on the shapes this pipeline can feed
it: `YYYY-MM-DD` and `YYYY-MM-DD*HH:MM:SS` (any single separator character,
as CPython accepts).  Any other shape raises in CPython and is `none` here;
the caller catches the exception and substitutes `datetime.min`. -/
def fromIso (s : String) : Option PyDateTime :=
  match s.data with
  | [y1, y2, y3, y4, '-', m1, m2, '-', d1, d2] =>
    match digits4 y1 y2 y3 y4, digits2 m1 m2, digits2 d1 d2 with
    | some y, some m, some d =>
      if validDate y m d then some ⟨y, m, d, 0, 0, 0⟩ else none
    | _, _, _ => none
  | [y1, y2, y3, y4, '-', m1, m2, '-', d1, d2, _,
     h1, h2, ':', mi1, mi2, ':', s1, s2] =>
    match digits4 y1 y2 y3 y4, digits2 m1 m2, digits2 d1 d2,
          digits2 h1 h2, digits2 mi1 mi2, digits2 s1 s2 with
    | some y, some m, some d, some h, some mi, some sec =>
      if validDate y m d && validTime h mi sec then some ⟨y, m, d, h, mi, sec⟩
      else none
    | _, _, _, _, _, _ => none
  | _ => none

/-- Python `ts.replace("Z", "")`: removes every occurrence. -/
def replaceZ (s : String) : String := ⟨s.data.filter (fun c => c ≠ 'Z')⟩

/-- The value `d.timestamp()` enters the sort key only through its ordering, so it is
modelled by an order-isomorphic integer encoding of the datetime (mixed
radix, minimal at `datetime.min`); the resulting sort is identical. -/
def dtKey (d : PyDateTime) : Int :=
  ((((d.year - 1) * 12 + (d.month - 1)) * 31 + (d.day - 1)) * 86400
    + d.hour * 3600 + d.minute * 60 + d.second : Nat)

/-- The constant `datetime.min` = 0001-01-01 00:00:00, the stand-in for an unparsable
`published_at`. -/
def dtMin : PyDateTime := ⟨1, 1, 1, 0, 0, 0⟩

/-- An article kept by the relevance filter: the normalized fields plus the
`relevance_score` / `impact_scope` keys the filter wrote into the dict. -/
structure KeptArticle where
  title : String
  published_at : String
  source : String
  url : String
  snippet : String
  relevance_score : ℚ
  impact_scope : String
deriving DecidableEq

/-- The effective timestamp used by `_sort_kept`'s key. -/
def tsEff (it : KeptArticle) : Int :=
  match fromIso (replaceZ it.published_at) with
  | some d => dtKey d
  | none => dtKey dtMin

/-- The order realised by Python `sorted` with key `(-score, -timestamp)`:
ascending lexicographic in the negated pair, i.e. relevance descending with
ties broken by effective timestamp descending. -/
def sortLE (a b : KeptArticle) : Prop :=
  b.relevance_score < a.relevance_score ∨
    (a.relevance_score = b.relevance_score ∧ tsEff b ≤ tsEff a)

instance : DecidableRel sortLE := fun a b => by unfold sortLE; infer_instance

instance : IsTotal KeptArticle sortLE := by
  constructor
  intro a b
  rcases lt_trichotomy a.relevance_score b.relevance_score with h | h | h
  · exact Or.inr (Or.inl h)
  · rcases le_total (tsEff b) (tsEff a) with ht | ht
    · exact Or.inl (Or.inr ⟨h, ht⟩)
    · exact Or.inr (Or.inr ⟨h.symm, ht⟩)
  · exact Or.inl (Or.inl h)

instance : IsTrans KeptArticle sortLE := by
  constructor
  intro a b c hab hbc
  rcases hab with h1 | ⟨h1, h1'⟩ <;> rcases hbc with h2 | ⟨h2, h2'⟩
  · exact Or.inl (lt_trans h2 h1)
  · exact Or.inl (h2 ▸ h1)
  · exact Or.inl (h1 ▸ h2)
  · exact Or.inr ⟨h1.trans h2, h2'.trans h1'⟩

/-- Embedding of `_sort_kept` (news_analyst.py 240-250): Python's stable `sorted` with key
`(-relevance_score, -timestamp)`, modelled by the stable insertion sort under
`sortLE`. -/
def sortKept (items : List KeptArticle) : List KeptArticle :=
  List.insertionSort sortLE items

/-! ## Raw articles and deduplication (news_analyst.py 106-155) -/

/-- A raw article dict from a news tool.  An absent key is modelled as `""`:
every read in the code goes through an `or`-chain or `.get(k, "")`, under
which `None` and `""` behave identically. -/
structure RawArticle where
  title : String := ""
  published_at : String := ""
  date : String := ""
  source : String := ""
  publisher : String := ""
  url : String := ""
  link : String := ""
  snippet : String := ""
  summary : String := ""
deriving DecidableEq

/-- Python `a or b` on strings. -/
def pyOr (a b : String) : String := if a ≠ "" then a else b

/-- The effective locator `it.get("url") or it.get("link") or ""`. -/
def locator (a : RawArticle) : String := pyOr a.url a.link

/-- The `_dedupe_articles` canonical key.  `_hash_url`'s md5 digest is
modelled by the hashed text itself (the code uses md5 only as an injective
fingerprint): the stripped, lowercased locator when one is present, else the
first 64 characters of the title. -/
def dkey (a : RawArticle) : String :=
  if locator a ≠ "" then ⟨lowerChars (trimChars (locator a).data)⟩
  else a.title.take 64

/-- The loop of `_dedupe_articles` (news_analyst.py 109-119): `seen` is the
set of keys already emitted (a list queried only through membership). -/
def dedupeGo (seen : List String) : List RawArticle → List RawArticle
  | [] => []
  | it :: rest =>
    if dkey it ∈ seen then dedupeGo seen rest
    else it :: dedupeGo (dkey it :: seen) rest

/-- Embedding of `_dedupe_articles`: first-seen-wins deduplication by `dkey`. -/
def dedupe_articles (items : List RawArticle) : List RawArticle := dedupeGo [] items

/-- The canonical article shape produced by `_normalize_dict_list`. -/
structure NormArticle where
  title : String := ""
  published_at : String := ""
  source : String := ""
  url : String := ""
  snippet : String := ""
deriving DecidableEq

/-- Embedding of `_normalize_dict_list` (news_analyst.py 144-155); `_iso` is the identity
on the string-typed dates the tools return. -/
def normalize_dict_list (items : List RawArticle) : List NormArticle :=
  items.map fun it =>
    { title := it.title
      published_at := pyOr it.published_at it.date
      source := pyOr it.source it.publisher
      url := pyOr it.url it.link
      snippet := pyOr it.snippet it.summary }

/-! ## Relevance scoring and filtering (news_analyst.py 157-238) -/

/-- The search text of `compute_relevance`: lowered title, a space, lowered
snippet. -/
def relText (title snippet : List Char) : List Char :=
  lowerChars title ++ (' ' :: lowerChars snippet)

/-- One additive vocabulary pass: each entry whose lowercase form occurs in
the text contributes `w`. -/
def hitScore (terms : List (List Char)) (w : ℚ) (text : List Char) : ℚ :=
  (terms.map (fun tm => if isSub (lowerChars tm) text then w else 0)).sum

def anyHit (terms : List (List Char)) (text : List Char) : Bool :=
  terms.any (fun tm => isSub (lowerChars tm) text)

/-- The test `if ticker and ticker.lower() in text`. -/
def tickerHit (ticker : List Char) (text : List Char) : Bool :=
  (!ticker.isEmpty) && isSub (lowerChars ticker) text

/-- The pre-clamp additive score of `compute_relevance`: ticker hit 0.55,
each alias hit 0.45, each competitor hit 0.25, each sector tag 0.2, each
macro term 0.12, short-title penalty 0.08. -/
def rawRelevance (ticker title snippet : List Char)
    (aliases competitors sector_tags macro_terms : List (List Char)) : ℚ :=
  let text := relText title snippet
  (if tickerHit ticker text then mkRat 55 100 else 0)
    + hitScore aliases (mkRat 45 100) text
    + hitScore competitors (mkRat 25 100) text
    + hitScore sector_tags (mkRat 2 10) text
    + hitScore macro_terms (mkRat 12 100) text
    - (if title.length < 8 then mkRat 8 100 else 0)

/-- Embedding of `compute_relevance` (news_analyst.py 157-219): the clamped relevance
score and the impact scope. -/
def compute_relevance (ticker title snippet : List Char)
    (aliases competitors sector_tags macro_terms : List (List Char)) : ℚ × String :=
  let text := relText title snippet
  let score :=
    max 0 (min (rawRelevance ticker title snippet aliases competitors sector_tags macro_terms) 1)
  let scope :=
    if tickerHit ticker text || anyHit aliases text then "company"
    else if anyHit sector_tags text then "sector"
    else if anyHit macro_terms text then "macro"
    else "macro"
  (score, scope)

/-- Wrapper for `compute_relevance` on a normalized article with `String` vocabulary. -/
def computeRelevanceOf (it : NormArticle) (ticker : String)
    (aliases competitors sector_tags macro_terms : List String) : ℚ × String :=
  compute_relevance ticker.data it.title.data it.snippet.data
    (aliases.map String.data) (competitors.map String.data)
    (sector_tags.map String.data) (macro_terms.map String.data)

/-- Embedding of `filter_company_relevant` (news_analyst.py 221-238): keep items scoring
at or above the threshold, writing the score and scope into the item. -/
def filter_company_relevant (company_items macro_items : List NormArticle)
    (ticker : String) (aliases competitors sector_tags macro_terms : List String)
    (threshold : ℚ) : List KeptArticle :=
  (company_items ++ macro_items).filterMap fun it =>
    let r := computeRelevanceOf it ticker aliases competitors sector_tags macro_terms
    if r.1 ≥ threshold then
      some { title := it.title, published_at := it.published_at, source := it.source,
             url := it.url, snippet := it.snippet,
             relevance_score := r.1, impact_scope := r.2 }
    else none

/-- Embedding of `_limit` (news_analyst.py 121-122). -/
def limit {α : Type} (items : List α) (n : Nat) : List α := items.take n

/-- The compacted article shape `_compact` builds for the prompt. -/
structure CompactArticle where
  title : String
  published_at : String
  source : String
  url : String
  snippet : String
deriving DecidableEq

/-- Embedding of `_compact` (news_analyst.py 132-142) at its call site, where the items
are normalized kept articles (so the `date`/`time`, `publisher`/`domain`,
`summary`/`description` fallback reads of the raw-dict version are dead). -/
def compact (items : List KeptArticle) : List CompactArticle :=
  items.map fun it => ⟨it.title, it.published_at, it.source, it.url, it.snippet.take 500⟩

/-- Embedding of `_estimate_unique_topics` (news_analyst.py 252-261): the number of
distinct first-seven-word title shingles (the md5 of the shingle is again
modelled by the shingle itself). -/
def estimate_unique_topics (items : List CompactArticle) : Nat :=
  ((items.filterMap fun it =>
      let t := it.title.trim.toLower
      if t = "" then none
      else some (String.intercalate " "
        (((t.split Char.isWhitespace).filter (fun w => w ≠ "")).take 7))).dedup).length

/-- The kept-source set `srcs` of the news node (news_analyst.py 380):
stripped nonempty sources, distinct, sorted. -/
def keptSources (items : List CompactArticle) : List String :=
  List.insertionSort (fun a b : String => a < b ∨ a = b)
    (((items.filter (fun it => it.source ≠ "")).map (fun it => it.source.trim)).dedup)

/-! ## Serialized records

Every stage serializes its record with `json.dumps(record.model_dump(),
indent=2)`.  The claims observe only that the serialized form is a nonempty
JSON object, so the renderer omits indentation and numeric formatting detail
(inter-token whitespace), keeping the object/field structure. -/

/-- A JSON value. -/
inductive JVal where
  | str : String → JVal
  | num : ℚ → JVal
  | int : Int → JVal
  | bool : Bool → JVal
  | null : JVal
  | arr : List JVal → JVal
  | obj : List (String × JVal) → JVal

mutual

def JVal.render : JVal → String
  | .str s => "\"" ++ s ++ "\""
  | .num q => toString q
  | .int n => toString n
  | .bool b => if b then "true" else "false"
  | .null => "null"
  | .arr xs => "[" ++ JVal.renderList xs ++ "]"
  | .obj fs => "\x7b" ++ JVal.renderFields fs ++ "\x7d"

def JVal.renderList : List JVal → String
  | [] => ""
  | [x] => x.render
  | x :: xs => x.render ++ ", " ++ JVal.renderList xs

def JVal.renderFields : List (String × JVal) → String
  | [] => ""
  | [(k, v)] => "\"" ++ k ++ "\": " ++ v.render
  | (k, v) :: fs => "\"" ++ k ++ "\": " ++ v.render ++ ", " ++ JVal.renderFields fs

end

def strArr (xs : List String) : JVal := .arr (xs.map JVal.str)

def optNum : Option ℚ → JVal
  | some q => .num q
  | none => .null

def optStr : Option String → JVal
  | some s => .str s
  | none => .null

/-- Bounds check for a `Field(ge=lo, le=hi)` float. -/
def qIn (lo hi q : ℚ) : Bool := decide (lo ≤ q) && decide (q ≤ hi)

/-! ## Stage output schemas

Each pydantic model of the five stage files becomes a structure over raw
field types (`String` for `Literal` fields, `ℚ` for bounded floats) plus an
executable `validb` that checks exactly the constraints pydantic enforces at
construction: `Literal` membership and `ge`/`le` bounds. -/

def sentiment3 : List String := ["bullish", "bearish", "neutral"]

/-! ### Market analyst (market_analyst_v2.py 20-44) -/

structure IndicatorAnalysis where
  name : String
  value : ℚ
  interpretation : String
  signal : String
deriving DecidableEq

def IndicatorAnalysis.validb (r : IndicatorAnalysis) : Bool := sentiment3.contains r.signal

def IndicatorAnalysis.toJVal (r : IndicatorAnalysis) : JVal :=
  .obj [("name", .str r.name), ("value", .num r.value),
        ("interpretation", .str r.interpretation), ("signal", .str r.signal)]

structure TrendAnalysis where
  short_term : String
  medium_term : String
  long_term : String
deriving DecidableEq

def TrendAnalysis.validb (r : TrendAnalysis) : Bool :=
  sentiment3.contains r.short_term && sentiment3.contains r.medium_term &&
    sentiment3.contains r.long_term

def TrendAnalysis.toJVal (r : TrendAnalysis) : JVal :=
  .obj [("short_term", .str r.short_term), ("medium_term", .str r.medium_term),
        ("long_term", .str r.long_term)]

structure MarketAnalysisOutput where
  analysis_summary : String
  selected_indicators : List IndicatorAnalysis
  trend_analysis : TrendAnalysis
  key_insights : List String
  risk_factors : List String
  market_sentiment : String
  confidence_score : ℚ
deriving DecidableEq

def MarketAnalysisOutput.validb (r : MarketAnalysisOutput) : Bool :=
  r.selected_indicators.all IndicatorAnalysis.validb && r.trend_analysis.validb &&
    sentiment3.contains r.market_sentiment && qIn 0 1 r.confidence_score

def MarketAnalysisOutput.toJVal (r : MarketAnalysisOutput) : JVal :=
  .obj [("analysis_summary", .str r.analysis_summary),
        ("selected_indicators", .arr (r.selected_indicators.map IndicatorAnalysis.toJVal)),
        ("trend_analysis", r.trend_analysis.toJVal),
        ("key_insights", strArr r.key_insights),
        ("risk_factors", strArr r.risk_factors),
        ("market_sentiment", .str r.market_sentiment),
        ("confidence_score", .num r.confidence_score)]

def MarketAnalysisOutput.dumps (r : MarketAnalysisOutput) : String := r.toJVal.render

/-! ### Fundamentals analyst (fundamentals_analyst_v2.py 21-71) -/

def valuationVerdicts : List String :=
  ["undervalued", "fairly_valued", "overvalued", "insufficient_data"]

def healthLabels : List String := ["excellent", "good", "fair", "poor", "critical"]

def growthTrendLabels : List String :=
  ["accelerating", "steady", "slowing", "declining", "volatile"]

def sustainabilityLabels : List String := ["high", "medium", "low", "uncertain"]

def ratingLabels : List String := ["strong_buy", "buy", "hold", "sell", "strong_sell"]

structure ValuationMetrics where
  pe_ratio : Option ℚ
  peg_ratio : Option ℚ
  price_to_book : Option ℚ
  valuation_verdict : String
  valuation_reasoning : String
deriving DecidableEq

def ValuationMetrics.validb (r : ValuationMetrics) : Bool :=
  valuationVerdicts.contains r.valuation_verdict

def ValuationMetrics.toJVal (r : ValuationMetrics) : JVal :=
  .obj [("pe_ratio", optNum r.pe_ratio), ("peg_ratio", optNum r.peg_ratio),
        ("price_to_book", optNum r.price_to_book),
        ("valuation_verdict", .str r.valuation_verdict),
        ("valuation_reasoning", .str r.valuation_reasoning)]

structure FinancialHealthMetrics where
  liquidity_score : ℚ
  leverage_score : ℚ
  profitability_score : ℚ
  cash_flow_score : ℚ
  overall_health : String
  health_reasoning : String
deriving DecidableEq

def FinancialHealthMetrics.validb (r : FinancialHealthMetrics) : Bool :=
  qIn 0 10 r.liquidity_score && qIn 0 10 r.leverage_score &&
    qIn 0 10 r.profitability_score && qIn 0 10 r.cash_flow_score &&
    healthLabels.contains r.overall_health

def FinancialHealthMetrics.toJVal (r : FinancialHealthMetrics) : JVal :=
  .obj [("liquidity_score", .num r.liquidity_score),
        ("leverage_score", .num r.leverage_score),
        ("profitability_score", .num r.profitability_score),
        ("cash_flow_score", .num r.cash_flow_score),
        ("overall_health", .str r.overall_health),
        ("health_reasoning", .str r.health_reasoning)]

structure GrowthMetrics where
  revenue_growth_trend : String
  earnings_growth_trend : String
  growth_sustainability : String
  growth_drivers : List String
deriving DecidableEq

def GrowthMetrics.validb (r : GrowthMetrics) : Bool :=
  growthTrendLabels.contains r.revenue_growth_trend &&
    growthTrendLabels.contains r.earnings_growth_trend &&
    sustainabilityLabels.contains r.growth_sustainability

def GrowthMetrics.toJVal (r : GrowthMetrics) : JVal :=
  .obj [("revenue_growth_trend", .str r.revenue_growth_trend),
        ("earnings_growth_trend", .str r.earnings_growth_trend),
        ("growth_sustainability", .str r.growth_sustainability),
        ("growth_drivers", strArr r.growth_drivers)]

structure FundamentalAnalysisOutput where
  analysis_summary : String
  valuation : ValuationMetrics
  financial_health : FinancialHealthMetrics
  growth : GrowthMetrics
  key_strengths : List String
  red_flags : List String
  competitive_advantages : List String
  fundamental_rating : String
  confidence_score : ℚ
deriving DecidableEq

def FundamentalAnalysisOutput.validb (r : FundamentalAnalysisOutput) : Bool :=
  r.valuation.validb && r.financial_health.validb && r.growth.validb &&
    ratingLabels.contains r.fundamental_rating && qIn 0 1 r.confidence_score

def FundamentalAnalysisOutput.toJVal (r : FundamentalAnalysisOutput) : JVal :=
  .obj [("analysis_summary", .str r.analysis_summary),
        ("valuation", r.valuation.toJVal),
        ("financial_health", r.financial_health.toJVal),
        ("growth", r.growth.toJVal),
        ("key_strengths", strArr r.key_strengths),
        ("red_flags", strArr r.red_flags),
        ("competitive_advantages", strArr r.competitive_advantages),
        ("fundamental_rating", .str r.fundamental_rating),
        ("confidence_score", .num r.confidence_score)]

def FundamentalAnalysisOutput.dumps (r : FundamentalAnalysisOutput) : String := r.toJVal.render

/-! ### Bull debater (bull_debater_v2.py 14-48) -/

def bullDirections : List String :=
  ["significantly_higher", "moderately_higher", "slightly_higher"]

def timeHorizons : List String :=
  ["short_term", "medium_term", "long_term", "multi_timeframe"]

def bullActions : List String := ["strong_buy", "buy", "accumulate"]

structure BullishSignals where
  technical_signals : List String
  fundamental_signals : List String
deriving DecidableEq

def BullishSignals.toJVal (r : BullishSignals) : JVal :=
  .obj [("technical_signals", strArr r.technical_signals),
        ("fundamental_signals", strArr r.fundamental_signals)]

structure BullishCatalysts where
  near_term : List String
  long_term : List String
deriving DecidableEq

def BullishCatalysts.toJVal (r : BullishCatalysts) : JVal :=
  .obj [("near_term", strArr r.near_term), ("long_term", strArr r.long_term)]

structure RiskAcknowledgment where
  key_risks : List String
  risk_mitigation : String
deriving DecidableEq

def RiskAcknowledgment.toJVal (r : RiskAcknowledgment) : JVal :=
  .obj [("key_risks", strArr r.key_risks), ("risk_mitigation", .str r.risk_mitigation)]

structure BullCaseOutput where
  thesis_summary : String
  bullish_signals : BullishSignals
  catalysts : BullishCatalysts
  target_price_direction : String
  time_horizon : String
  risk_acknowledgment : RiskAcknowledgment
  conviction_score : ℚ
  recommended_action : String
deriving DecidableEq

def BullCaseOutput.validb (r : BullCaseOutput) : Bool :=
  bullDirections.contains r.target_price_direction &&
    timeHorizons.contains r.time_horizon && qIn 0 1 r.conviction_score &&
    bullActions.contains r.recommended_action

def BullCaseOutput.toJVal (r : BullCaseOutput) : JVal :=
  .obj [("thesis_summary", .str r.thesis_summary),
        ("bullish_signals", r.bullish_signals.toJVal),
        ("catalysts", r.catalysts.toJVal),
        ("target_price_direction", .str r.target_price_direction),
        ("time_horizon", .str r.time_horizon),
        ("risk_acknowledgment", r.risk_acknowledgment.toJVal),
        ("conviction_score", .num r.conviction_score),
        ("recommended_action", .str r.recommended_action)]

def BullCaseOutput.dumps (r : BullCaseOutput) : String := r.toJVal.render

/-! ### Bear debater (bear_debater_v2.py 14-48) -/

def bearDirections : List String :=
  ["significantly_lower", "moderately_lower", "slightly_lower"]

def bearActions : List String := ["strong_sell", "sell", "avoid"]

structure BearishSignals where
  technical_signals : List String
  fundamental_signals : List String
deriving DecidableEq

def BearishSignals.toJVal (r : BearishSignals) : JVal :=
  .obj [("technical_signals", strArr r.technical_signals),
        ("fundamental_signals", strArr r.fundamental_signals)]

structure DownsideRisks where
  near_term : List String
  long_term : List String
deriving DecidableEq

def DownsideRisks.toJVal (r : DownsideRisks) : JVal :=
  .obj [("near_term", strArr r.near_term), ("long_term", strArr r.long_term)]

structure CounterArguments where
  bull_case_weaknesses : List String
  why_bulls_are_wrong : String
deriving DecidableEq

def CounterArguments.toJVal (r : CounterArguments) : JVal :=
  .obj [("bull_case_weaknesses", strArr r.bull_case_weaknesses),
        ("why_bulls_are_wrong", .str r.why_bulls_are_wrong)]

structure BearCaseOutput where
  thesis_summary : String
  bearish_signals : BearishSignals
  downside_risks : DownsideRisks
  target_price_direction : String
  time_horizon : String
  counter_arguments : CounterArguments
  conviction_score : ℚ
  recommended_action : String
deriving DecidableEq

def BearCaseOutput.validb (r : BearCaseOutput) : Bool :=
  bearDirections.contains r.target_price_direction &&
    timeHorizons.contains r.time_horizon && qIn 0 1 r.conviction_score &&
    bearActions.contains r.recommended_action

def BearCaseOutput.toJVal (r : BearCaseOutput) : JVal :=
  .obj [("thesis_summary", .str r.thesis_summary),
        ("bearish_signals", r.bearish_signals.toJVal),
        ("downside_risks", r.downside_risks.toJVal),
        ("target_price_direction", .str r.target_price_direction),
        ("time_horizon", .str r.time_horizon),
        ("counter_arguments", r.counter_arguments.toJVal),
        ("conviction_score", .num r.conviction_score),
        ("recommended_action", .str r.recommended_action)]

def BearCaseOutput.dumps (r : BearCaseOutput) : String := r.toJVal.render

/-! ### Supervisor (supervisor_v2.py 14-69) -/

def supActions : List String :=
  ["strong_buy", "buy", "accumulate", "hold", "reduce", "sell", "strong_sell"]

def positionSizes : List String := ["full", "half", "quarter", "minimal", "zero"]

def consensusLabels : List String := ["bullish", "bearish", "neutral", "mixed"]

structure RiskTieredRecommendation where
  action : String
  position_size : String
  entry_strategy : String
  stop_loss : Option String
  rationale : String
deriving DecidableEq

def RiskTieredRecommendation.validb (r : RiskTieredRecommendation) : Bool :=
  supActions.contains r.action && positionSizes.contains r.position_size

def RiskTieredRecommendation.toJVal (r : RiskTieredRecommendation) : JVal :=
  .obj [("action", .str r.action), ("position_size", .str r.position_size),
        ("entry_strategy", .str r.entry_strategy),
        ("stop_loss", optStr r.stop_loss), ("rationale", .str r.rationale)]

structure TimeHorizonOutlook where
  short_term : String
  medium_term : String
  long_term : String
deriving DecidableEq

def TimeHorizonOutlook.validb (r : TimeHorizonOutlook) : Bool :=
  sentiment3.contains r.short_term && sentiment3.contains r.medium_term &&
    sentiment3.contains r.long_term

def TimeHorizonOutlook.toJVal (r : TimeHorizonOutlook) : JVal :=
  .obj [("short_term", .str r.short_term), ("medium_term", .str r.medium_term),
        ("long_term", .str r.long_term)]

structure SupervisorDecision where
  executive_summary : String
  market_thesis : String
  fundamental_thesis : String
  bull_case_strength : ℚ
  bear_case_strength : ℚ
  consensus_direction : String
  low_risk_recommendation : RiskTieredRecommendation
  medium_risk_recommendation : RiskTieredRecommendation
  high_risk_recommendation : RiskTieredRecommendation
  time_horizon_outlook : TimeHorizonOutlook
  key_decision_factors : List String
  monitoring_points : List String
  final_confidence : ℚ
deriving DecidableEq

def SupervisorDecision.validb (r : SupervisorDecision) : Bool :=
  qIn 0 10 r.bull_case_strength && qIn 0 10 r.bear_case_strength &&
    consensusLabels.contains r.consensus_direction &&
    r.low_risk_recommendation.validb && r.medium_risk_recommendation.validb &&
    r.high_risk_recommendation.validb && r.time_horizon_outlook.validb &&
    qIn 0 1 r.final_confidence

def SupervisorDecision.toJVal (r : SupervisorDecision) : JVal :=
  .obj [("executive_summary", .str r.executive_summary),
        ("market_thesis", .str r.market_thesis),
        ("fundamental_thesis", .str r.fundamental_thesis),
        ("bull_case_strength", .num r.bull_case_strength),
        ("bear_case_strength", .num r.bear_case_strength),
        ("consensus_direction", .str r.consensus_direction),
        ("low_risk_recommendation", r.low_risk_recommendation.toJVal),
        ("medium_risk_recommendation", r.medium_risk_recommendation.toJVal),
        ("high_risk_recommendation", r.high_risk_recommendation.toJVal),
        ("time_horizon_outlook", r.time_horizon_outlook.toJVal),
        ("key_decision_factors", strArr r.key_decision_factors),
        ("monitoring_points", strArr r.monitoring_points),
        ("final_confidence", .num r.final_confidence)]

def SupervisorDecision.dumps (r : SupervisorDecision) : String := r.toJVal.render

/-! ### News analyst (news_analyst.py 30-67) -/

def impactScopes : List String := ["company", "sector", "macro"]

def demandLabels : List String := ["positive", "negative", "neutral", "uncertain"]

def costLabels : List String := ["increasing", "decreasing", "stable", "uncertain"]

def regulatoryLabels : List String := ["elevated", "moderate", "low", "uncertain"]

def valuationImpactLabels : List String :=
  ["expansion", "compression", "neutral", "uncertain"]

def themeDirections : List String := ["tailwind", "headwind", "mixed"]

structure NewsItem where
  title : String
  published_at : String
  source : String
  url : String
  tags : List String
  sentiment : String
  impact_scope : String
  relevance_score : ℚ
  summary : String
deriving DecidableEq

def NewsItem.validb (r : NewsItem) : Bool :=
  sentiment3.contains r.sentiment && impactScopes.contains r.impact_scope &&
    qIn 0 1 r.relevance_score

def NewsItem.toJVal (r : NewsItem) : JVal :=
  .obj [("title", .str r.title), ("published_at", .str r.published_at),
        ("source", .str r.source), ("url", .str r.url),
        ("tags", strArr r.tags), ("sentiment", .str r.sentiment),
        ("impact_scope", .str r.impact_scope),
        ("relevance_score", .num r.relevance_score),
        ("summary", .str r.summary)]

structure MacroTheme where
  theme : String
  direction : String
  evidence_count : Int
  representative_titles : List String
deriving DecidableEq

def MacroTheme.validb (r : MacroTheme) : Bool :=
  themeDirections.contains r.direction && decide (0 ≤ r.evidence_count)

def MacroTheme.toJVal (r : MacroTheme) : JVal :=
  .obj [("theme", .str r.theme), ("direction", .str r.direction),
        ("evidence_count", .int r.evidence_count),
        ("representative_titles", strArr r.representative_titles)]

structure CompanyImpact where
  demand_outlook : String
  cost_pressure : String
  regulatory_risk : String
  valuation_impact : String
  reasoning : String
deriving DecidableEq

def CompanyImpact.validb (r : CompanyImpact) : Bool :=
  demandLabels.contains r.demand_outlook && costLabels.contains r.cost_pressure &&
    regulatoryLabels.contains r.regulatory_risk &&
    valuationImpactLabels.contains r.valuation_impact

def CompanyImpact.toJVal (r : CompanyImpact) : JVal :=
  .obj [("demand_outlook", .str r.demand_outlook),
        ("cost_pressure", .str r.cost_pressure),
        ("regulatory_risk", .str r.regulatory_risk),
        ("valuation_impact", .str r.valuation_impact),
        ("reasoning", .str r.reasoning)]

structure NewsAnalysisOutput where
  analysis_summary : String
  lookback_window_days : Int
  coverage_stats : List (String × Int)
  macro_themes : List MacroTheme
  company_impact : CompanyImpact
  catalysts : List String
  risk_radar : List String
  overall_sentiment : String
  confidence_score : ℚ
  highlighted_articles : List NewsItem
  sources : List String
deriving DecidableEq

def NewsAnalysisOutput.validb (r : NewsAnalysisOutput) : Bool :=
  decide (1 ≤ r.lookback_window_days) && decide (r.lookback_window_days ≤ 30) &&
    r.macro_themes.all MacroTheme.validb && r.company_impact.validb &&
    sentiment3.contains r.overall_sentiment && qIn 0 1 r.confidence_score &&
    r.highlighted_articles.all NewsItem.validb

def NewsAnalysisOutput.toJVal (r : NewsAnalysisOutput) : JVal :=
  .obj [("analysis_summary", .str r.analysis_summary),
        ("lookback_window_days", .int r.lookback_window_days),
        ("coverage_stats", .obj (r.coverage_stats.map (fun kv => (kv.1, .int kv.2)))),
        ("macro_themes", .arr (r.macro_themes.map MacroTheme.toJVal)),
        ("company_impact", r.company_impact.toJVal),
        ("catalysts", strArr r.catalysts),
        ("risk_radar", strArr r.risk_radar),
        ("overall_sentiment", .str r.overall_sentiment),
        ("confidence_score", .num r.confidence_score),
        ("highlighted_articles", .arr (r.highlighted_articles.map NewsItem.toJVal)),
        ("sources", strArr r.sources)]

def NewsAnalysisOutput.dumps (r : NewsAnalysisOutput) : String := r.toJVal.render

/-! ## Shared pipeline state (state.py) and partial updates -/

/-- A LangChain message, reduced to constructor and content. -/
inductive Message where
  | human : String → Message
  | ai : String → Message
deriving DecidableEq

/-- The constructor kind of a message, for transcript-shape statements. -/
inductive MessageKind where
  | human
  | ai
deriving DecidableEq

def Message.kind : Message → MessageKind
  | .human _ => .human
  | .ai _ => .ai

/-- Embedding of `TradingState` (state.py 12-34). -/
structure TradingState where
  ticker : String
  date : String
  messages : List Message
  market_analysis : String
  fundamental_analysis : String
  bull_argument : String
  bear_argument : String
  decision : String
  rationale : String
  confidence : ℚ
  supervisor_decision : String
deriving DecidableEq

/-- The partial state dict a node returns.  The state schema declares no
reducers, so LangGraph overwrites every returned key (including `messages`,
as the `# Overwrites old messages` comments in the nodes note). -/
structure StateUpdate where
  ticker : Option String := none
  date : Option String := none
  messages : Option (List Message) := none
  market_analysis : Option String := none
  fundamental_analysis : Option String := none
  bull_argument : Option String := none
  bear_argument : Option String := none
  decision : Option String := none
  rationale : Option String := none
  confidence : Option ℚ := none
  supervisor_decision : Option String := none
deriving DecidableEq

/-- LangGraph's merge of a node's partial update into the shared state. -/
def applyUpdate (st : TradingState) (u : StateUpdate) : TradingState where
  ticker := u.ticker.getD st.ticker
  date := u.date.getD st.date
  messages := u.messages.getD st.messages
  market_analysis := u.market_analysis.getD st.market_analysis
  fundamental_analysis := u.fundamental_analysis.getD st.fundamental_analysis
  bull_argument := u.bull_argument.getD st.bull_argument
  bear_argument := u.bear_argument.getD st.bear_argument
  decision := u.decision.getD st.decision
  rationale := u.rationale.getD st.rationale
  confidence := u.confidence.getD st.confidence
  supervisor_decision := u.supervisor_decision.getD st.supervisor_decision

/-! ## The structured-output extraction shared by all stages -/

/-- A record together with evidence that pydantic accepted it: every record
produced by `with_structured_output` or by a successful
`Model(**json.loads(text))` call was validated at construction. -/
def ValidRec (R : Type) (vb : R → Bool) : Type := {r : R // vb r = true}

/-- The outcome of the single generative call of a stage: the
structured-output transport (tier 1) when `with_structured_output` exists,
else a raw-text response (tier 2); either may raise. -/
inductive LLMOutcome (R : Type) (vb : R → Bool) where
  | structured : Except String (ValidRec R vb) → LLMOutcome R vb
  | raw : Except String String → LLMOutcome R vb

/-- The outcome of `Model(**json.loads(text))` on stripped tier-2 text,
supplied as an oracle (the JSON library is external); success certifies
validity because the pydantic constructor validates. -/
def ParseOracle (R : Type) (vb : R → Bool) : Type :=
  List Char → Except String (ValidRec R vb)

/-- A pydantic constructor call: validates its field values, raising
`ValidationError` when one lies outside its declared domain. -/
def pydanticCheck {R : Type} (vb : R → Bool) (r : R) : Except String R :=
  if vb r then .ok r else .error "ValidationError"

/-- The try/except extraction idiom shared by the five stage files (e.g.
market_analyst_v2.py 138-178): tier 1 structured call, or tier 2 raw text
with fence stripping, JSON parse and schema validation; any exception or
validation failure falls through to the stage's static fallback dict, which
is built without a pydantic constructor. -/
def extractWith {R : Type} {vb : R → Bool} (llm : LLMOutcome R vb)
    (parse : ParseOracle R vb) (fallback : String → R) : R :=
  match llm with
  | .structured (.ok v) => v.1
  | .structured (.error e) => fallback e
  | .raw (.ok t) =>
    match parse (stripFencesV2 t.data) with
    | .ok v => v.1
    | .error e => fallback e
  | .raw (.error e) => fallback e

/-! ## Static fallback records

Transcribed field by field from the stage files.  `bull_debater_v2.py` and
`supervisor_v2.py` carry unresolved git conflict markers; the two conflict
sides differ only in prompt copy and in extra fallback list entries, and the
`6c286e9` side (the upload the file ends in) is the one embedded. -/

/-- market_analyst_v2.py 71-83 (data-fetch error branch, pydantic). -/
def marketDataErrorOutput (ticker e : String) : MarketAnalysisOutput where
  analysis_summary := "Unable to analyze " ++ ticker ++ " due to data fetching error."
  selected_indicators := []
  trend_analysis := ⟨"neutral", "neutral", "neutral"⟩
  key_insights := ["Data error: " ++ e]
  risk_factors := ["Unable to fetch market data"]
  market_sentiment := "neutral"
  confidence_score := 0

/-- market_analyst_v2.py 166-178 (extraction fallback dict). -/
def marketParseFallback (ticker e : String) : MarketAnalysisOutput where
  analysis_summary := "Analysis completed for " ++ ticker ++ " but encountered formatting issues."
  selected_indicators := []
  trend_analysis := ⟨"neutral", "neutral", "neutral"⟩
  key_insights := ["Unable to parse structured analysis", "Error: " ++ e]
  risk_factors := ["Analysis parsing error"]
  market_sentiment := "neutral"
  confidence_score := mkRat 3 10

/-- fundamentals_analyst_v2.py 163-191 (collector short-circuit, pydantic). -/
def fundShortCircuitOutput (ticker : String) (errors : List String) :
    FundamentalAnalysisOutput where
  analysis_summary :=
    "Unable to perform fundamental analysis for " ++ ticker ++ " due to multiple data fetching errors."
  valuation := ⟨none, none, none, "insufficient_data", "Insufficient data to assess valuation."⟩
  financial_health := ⟨0, 0, 0, 0, "critical", "Unable to assess financial health due to data errors."⟩
  growth := ⟨"uncertain", "uncertain", "uncertain", ["Data unavailable"]⟩
  key_strengths := []
  red_flags := errors
  competitive_advantages := []
  fundamental_rating := "hold"
  confidence_score := 0

/-- fundamentals_analyst_v2.py 352-380 (extraction fallback dict). -/
def fundParseFallback (ticker e : String) : FundamentalAnalysisOutput where
  analysis_summary :=
    "Fundamental analysis completed for " ++ ticker ++ " but encountered formatting issues. Data was collected successfully."
  valuation := ⟨none, none, none, "insufficient_data",
    "Unable to complete valuation assessment due to parsing error."⟩
  financial_health := ⟨5, 5, 5, 5, "fair",
    "Unable to complete detailed health assessment due to parsing error."⟩
  growth := ⟨"uncertain", "uncertain", "uncertain", ["Analysis parsing error - see raw data"]⟩
  key_strengths := ["Data collected successfully - see fundamental_analysis field"]
  red_flags := ["Analysis formatting error: " ++ e]
  competitive_advantages := []
  fundamental_rating := "hold"
  confidence_score := mkRat 3 10

/-- bull_debater_v2.py 229-258 (extraction fallback dict). -/
def bullParseFallback (ticker e : String) : BullCaseOutput where
  thesis_summary :=
    "Bull case for " ++ ticker ++ " could not be fully formulated due to parsing error, but data suggests potential upside opportunities exist."
  bullish_signals := ⟨["Analysis data collected - see market_analysis"],
    ["Analysis data collected - see fundamental_analysis",
     "News indicates potential positives - see news_analysis for supportive themes/catalysts"]⟩
  catalysts := ⟨["Technical setup or fundamental strength may provide upside",
     "News-dated catalysts may act as near-term triggers (see news_analysis)"],
    ["Company fundamentals may support growth",
     "Durable positive themes in news could reinforce long-term thesis"]⟩
  target_price_direction := "moderately_higher"
  time_horizon := "medium_term"
  risk_acknowledgment := ⟨["Bull case formatting error: " ++ e,
    "Incomplete analysis due to parsing issue"],
    "Review raw analysis data before taking action."⟩
  conviction_score := mkRat 3 10
  recommended_action := "accumulate"

/-- bear_debater_v2.py 214-235 (extraction fallback dict). -/
def bearParseFallback (ticker e : String) : BearCaseOutput where
  thesis_summary :=
    "Bear case for " ++ ticker ++ " could not be fully formulated due to parsing error, but data suggests potential downside risks exist."
  bearish_signals := ⟨["Analysis data collected - see market_analysis"],
    ["Analysis data collected - see fundamental_analysis",
     "News-related risks present - see news_analysis for negative themes/catalysts"]⟩
  downside_risks := ⟨["Technical weakness or fundamental concerns may create downside",
     "News catalysts could trigger volatility (see news_analysis)"],
    ["Company fundamentals may present risks",
     "Macro/sector headwinds indicated in news may persist"]⟩
  target_price_direction := "moderately_lower"
  time_horizon := "medium_term"
  counter_arguments := ⟨["Bear case formatting error: " ++ e,
    "Incomplete analysis due to parsing issue"],
    "Cannot fully assess bull case weaknesses due to formatting error. Review raw analysis data."⟩
  conviction_score := mkRat 3 10
  recommended_action := "avoid"

/-- supervisor_v2.py 325-368 (extraction fallback dict). -/
def supParseFallback (ticker e : String) : SupervisorDecision where
  executive_summary :=
    "Investment decision for " ++ ticker ++ " could not be fully formulated due to parsing error. Review individual analysis components before making decisions."
  market_thesis := "Technical analysis completed - see market_analysis for details."
  fundamental_thesis := "Fundamental analysis completed - see fundamental_analysis for details."
  bull_case_strength := 5
  bear_case_strength := 5
  consensus_direction := "neutral"
  low_risk_recommendation := ⟨"hold", "minimal", "Wait for clearer signals before acting",
    none, "Conservative approach warranted due to analysis formatting issues."⟩
  medium_risk_recommendation := ⟨"hold", "quarter", "Review raw analysis before making moves",
    none, "Moderate caution advised given incomplete synthesis."⟩
  high_risk_recommendation := ⟨"hold", "half", "Consider raw analysis data for trading decisions",
    none, "Even aggressive traders should review individual analyses given formatting error."⟩
  time_horizon_outlook := ⟨"neutral", "neutral", "neutral"⟩
  key_decision_factors := ["Decision formatting error: " ++ e,
    "Review individual analysis components", "Wait for successful analysis run"]
  monitoring_points := ["Re-run analysis to get proper synthesis",
    "Check data quality and API connectivity"]
  final_confidence := mkRat 2 10

/-- news_analyst.py 346-364 (no relevant items, pydantic). -/
def newsNoItemsFallback (ticker : String) (lookback rawTotal : Int) : NewsAnalysisOutput where
  analysis_summary :=
    "No company-relevant news found for " ++ ticker ++ " in the past " ++ toString lookback ++ " days."
  lookback_window_days := lookback
  coverage_stats := [("articles", 0), ("sources", 0), ("unique_topics", 0),
    ("raw_articles", rawTotal)]
  macro_themes := []
  company_impact := ⟨"uncertain", "uncertain", "uncertain", "uncertain",
    "No relevant articles were identified within the selected window."⟩
  catalysts := []
  risk_radar := []
  overall_sentiment := "neutral"
  confidence_score := mkRat 15 100
  highlighted_articles := []
  sources := []

/-- news_analyst.py 461-484 (extraction fallback, also pydantic). -/
def newsParseFallback (e : String) (lookback nKept : Int) (srcs : List String)
    (uniqueTopics rawTotal : Int) : NewsAnalysisOutput where
  analysis_summary :=
    "News analysis completed but encountered formatting issues: " ++ e ++ "."
  lookback_window_days := lookback
  coverage_stats := [("articles", nKept), ("sources", srcs.length),
    ("unique_topics", uniqueTopics), ("raw_articles", rawTotal)]
  macro_themes := []
  company_impact := ⟨"uncertain", "uncertain", "uncertain", "uncertain",
    "Parser fallback; see highlighted articles list."⟩
  catalysts := []
  risk_radar := []
  overall_sentiment := "neutral"
  confidence_score := mkRat 35 100
  highlighted_articles := []
  sources := srcs

/-! ## Stage nodes -/

/-- Embedding of `market_analyst_node` (market_analyst_v2.py 55-198).  `tools` is the
outcome of the step-1 data fetch (both `invoke` calls live in one `try`);
`llm` and `parse` are the step-3 extraction oracles. -/
def market_analyst_node (tools : Except String (String × String))
    (llm : LLMOutcome MarketAnalysisOutput MarketAnalysisOutput.validb)
    (parse : ParseOracle MarketAnalysisOutput MarketAnalysisOutput.validb)
    (st : TradingState) : Except String StateUpdate :=
  match tools with
  | .error e =>
    match pydanticCheck MarketAnalysisOutput.validb (marketDataErrorOutput st.ticker e) with
    | .error pe => .error pe
    | .ok errOut =>
      .ok { messages := some
              [.ai ("Market Analysis for " ++ st.ticker ++ ":\n" ++ errOut.dumps)],
            market_analysis := some errOut.dumps }
  | .ok _ =>
    let analysis := extractWith llm parse (marketParseFallback st.ticker)
    .ok { messages := some
            [.human ("Analyze market conditions for " ++ st.ticker ++ " as of " ++ st.date),
             .ai ("Market Analysis for " ++ st.ticker ++ ":\n\n" ++ analysis.dumps)],
          market_analysis := some analysis.dumps }

/-- The five collector call groups of the fundamentals stage, each `try`
block an independently fallible outcome (the balance-sheet, income and
cash-flow blocks each hold a quarterly and an annual `invoke`). -/
structure FundCollectors where
  overview : Except String String
  balance : Except String (String × String)
  income : Except String (String × String)
  cashflow : Except String (String × String)
  earnings : Except String String

/-- The `errors` list accumulated by the five `try` blocks
(fundamentals_analyst_v2.py 104-159). -/
def fundErrors (t : FundCollectors) : List String :=
  (match t.overview with
   | .error e => ["Company overview error: " ++ e]
   | .ok _ => []) ++
  (match t.balance with
   | .error e => ["Balance sheet error: " ++ e]
   | .ok _ => []) ++
  (match t.income with
   | .error e => ["Income statement error: " ++ e]
   | .ok _ => []) ++
  (match t.cashflow with
   | .error e => ["Cash flow error: " ++ e]
   | .ok _ => []) ++
  (match t.earnings with
   | .error e => ["Earnings error: " ++ e]
   | .ok _ => [])

/-- The `data_collected` dict, with the placeholder strings the `except`
branches write for failed groups (fundamentals_analyst_v2.py 104-159). -/
def fundDataCollected (ticker : String) (t : FundCollectors) : List (String × String) :=
  (match t.overview with
   | .ok d => [("company_overview", d)]
   | .error _ => [("company_overview", "Error fetching company overview for " ++ ticker)]) ++
  (match t.balance with
   | .ok d => [("balance_sheet_quarterly", d.1), ("balance_sheet_annual", d.2)]
   | .error _ => [("balance_sheet_quarterly", "Error fetching balance sheet"),
                  ("balance_sheet_annual", "Error fetching balance sheet")]) ++
  (match t.income with
   | .ok d => [("income_statement_quarterly", d.1), ("income_statement_annual", d.2)]
   | .error _ => [("income_statement_quarterly", "Error fetching income statement"),
                  ("income_statement_annual", "Error fetching income statement")]) ++
  (match t.cashflow with
   | .ok d => [("cash_flow_quarterly", d.1), ("cash_flow_annual", d.2)]
   | .error _ => [("cash_flow_quarterly", "Error fetching cash flow"),
                  ("cash_flow_annual", "Error fetching cash flow")]) ++
  (match t.earnings with
   | .ok d => [("earnings", d)]
   | .error _ => [("earnings", "Error fetching earnings data")])

/-- Embedding of `fundamentals_analyst_node` (fundamentals_analyst_v2.py 89-398): the
short-circuit fires on `len(errors) >= 4`, building its degraded record
through the pydantic constructors; otherwise the stage proceeds to
extraction with the collected data (placeholders included) in the prompt. -/
def fundamentals_analyst_node (tools : FundCollectors)
    (llm : LLMOutcome FundamentalAnalysisOutput FundamentalAnalysisOutput.validb)
    (parse : ParseOracle FundamentalAnalysisOutput FundamentalAnalysisOutput.validb)
    (st : TradingState) : Except String StateUpdate :=
  let errors := fundErrors tools
  if 4 ≤ errors.length then
    match pydanticCheck FundamentalAnalysisOutput.validb
        (fundShortCircuitOutput st.ticker errors) with
    | .error pe => .error pe
    | .ok errOut =>
      .ok { messages := some
              [.ai ("Fundamental Analysis for " ++ st.ticker ++ ":\n" ++ errOut.dumps)],
            fundamental_analysis := some errOut.dumps }
  else
    let analysis := extractWith llm parse (fundParseFallback st.ticker)
    .ok { messages := some
            [.human ("Perform fundamental analysis for " ++ st.ticker ++ " as of " ++ st.date),
             .ai ("Fundamental Analysis for " ++ st.ticker ++ ":\n\n" ++ analysis.dumps)],
          fundamental_analysis := some analysis.dumps }

/-- Embedding of `bull_debater_node` (bull_debater_v2.py 71-274). -/
def bull_debater_node (llm : LLMOutcome BullCaseOutput BullCaseOutput.validb)
    (parse : ParseOracle BullCaseOutput BullCaseOutput.validb)
    (st : TradingState) : Except String StateUpdate :=
  let bull := extractWith llm parse (bullParseFallback st.ticker)
  .ok { messages := some
          [.human ("Build the strongest bullish case for " ++ st.ticker ++
            " based on market and fundamental analysis"),
           .ai ("Bull Case for " ++ st.ticker ++ ":\n\n" ++ bull.dumps)],
        bull_argument := some bull.dumps }

/-- Embedding of `bear_debater_node` (bear_debater_v2.py 68-251). -/
def bear_debater_node (llm : LLMOutcome BearCaseOutput BearCaseOutput.validb)
    (parse : ParseOracle BearCaseOutput BearCaseOutput.validb)
    (st : TradingState) : Except String StateUpdate :=
  let bear := extractWith llm parse (bearParseFallback st.ticker)
  .ok { messages := some
          [.human ("Build the strongest bearish case for " ++ st.ticker ++
            " based on news, market and fundamental analysis"),
           .ai ("Bear Case for " ++ st.ticker ++ ":\n\n" ++ bear.dumps)],
        bear_argument := some bear.dumps }

/-- Embedding of `supervisor_node` (supervisor_v2.py 93-387): `decision_json` always
carries the `consensus_direction` / `executive_summary` /
`final_confidence` keys, so the `.get` defaults never fire. -/
def supervisor_node (llm : LLMOutcome SupervisorDecision SupervisorDecision.validb)
    (parse : ParseOracle SupervisorDecision SupervisorDecision.validb)
    (st : TradingState) : Except String StateUpdate :=
  let d := extractWith llm parse (supParseFallback st.ticker)
  .ok { messages := some
          [.human ("Provide final investment decision for " ++ st.ticker ++
            " based on all analysis and debate"),
           .ai ("Final Investment Decision for " ++ st.ticker ++ ":\n\n" ++ d.dumps)],
        decision := some d.consensus_direction,
        rationale := some d.executive_summary,
        confidence := some d.final_confidence,
        supervisor_decision := some d.dumps }

/-! ## The pipeline (trading_graph.py 90-231) -/

/-- All node oracles of one run. -/
structure Oracles where
  marketTools : Except String (String × String)
  marketLLM : LLMOutcome MarketAnalysisOutput MarketAnalysisOutput.validb
  marketParse : ParseOracle MarketAnalysisOutput MarketAnalysisOutput.validb
  fundTools : FundCollectors
  fundLLM : LLMOutcome FundamentalAnalysisOutput FundamentalAnalysisOutput.validb
  fundParse : ParseOracle FundamentalAnalysisOutput FundamentalAnalysisOutput.validb
  bullLLM : LLMOutcome BullCaseOutput BullCaseOutput.validb
  bullParse : ParseOracle BullCaseOutput BullCaseOutput.validb
  bearLLM : LLMOutcome BearCaseOutput BearCaseOutput.validb
  bearParse : ParseOracle BearCaseOutput BearCaseOutput.validb
  supLLM : LLMOutcome SupervisorDecision SupervisorDecision.validb
  supParse : ParseOracle SupervisorDecision SupervisorDecision.validb

/-- The node chain of `_build_graph` (trading_graph.py 114-145): a linear
workflow market → fundamentals → bull → bear → supervisor. -/
def pipelineNodes (o : Oracles) :
    List (String × (TradingState → Except String StateUpdate)) :=
  [("market_analyst", market_analyst_node o.marketTools o.marketLLM o.marketParse),
   ("fundamentals_analyst", fundamentals_analyst_node o.fundTools o.fundLLM o.fundParse),
   ("bull_debater", bull_debater_node o.bullLLM o.bullParse),
   ("bear_debater", bear_debater_node o.bearLLM o.bearParse),
   ("supervisor", supervisor_node o.supLLM o.supParse)]

/-- Sequential execution of a linear LangGraph chain: each node's partial
update is merged into the shared state; an uncaught node exception aborts
the run with no final state.  Returns the final state together with the
trace of executed node names. -/
def runNodes : List (String × (TradingState → Except String StateUpdate)) →
    TradingState → Except String (TradingState × List String)
  | [], st => .ok (st, [])
  | (n, f) :: rest, st =>
    match f st with
    | .error e => .error e
    | .ok u =>
      match runNodes rest (applyUpdate st u) with
      | .error e => .error e
      | .ok (st', tr) => .ok (st', n :: tr)

/-- The initial state `analyze` builds (trading_graph.py 182-194). -/
def initialState (ticker date : String) : TradingState where
  ticker := ticker
  date := date
  messages := []
  market_analysis := ""
  fundamental_analysis := ""
  bull_argument := ""
  bear_argument := ""
  decision := "neutral"
  rationale := ""
  confidence := 0
  supervisor_decision := ""

/-- Embedding of `analyze` (trading_graph.py 147-231): one full run. -/
def runPipeline (ticker date : String) (o : Oracles) :
    Except String (TradingState × List String) :=
  runNodes (pipelineNodes o) (initialState ticker date)

/-! ## The news analyst node (news_analyst.py 276-497)

Not wired into `trading_graph.py`'s chain; its update carries its own
`news_analysis` key.  The state reads of lines 277-289 (`ticker` after
`.upper().strip()`, `lookback_days`, the dictionary overrides, threshold,
caps) are passed in as the values they produce. -/

/-- The expression `raw = tool.invoke(...) or []` under the enclosing `try`: the fetched
list, or `[]` when the tool raised (the initialisation of line 304 stands). -/
def fetchOr (r : Except String (List RawArticle)) : List RawArticle :=
  match r with
  | .ok l => l
  | .error _ => []

structure NewsStateArgs where
  ticker : String
  date : String
  lookback_days : Int
  aliases : List String
  competitors : List String
  sector_tags : List String
  macro_terms : List String
  relevance_threshold : ℚ
  max_kept : Nat

/-- The partial update the news node returns. -/
structure NewsUpdate where
  messages : List Message
  news_analysis : String
deriving DecidableEq

/-- Embedding of `news_analyst_node`.  `fetchCompany` / `fetchMacro` are the outcomes of
the two stream fetches (each `try` leaves `[]` in place on error); `llm` and
`parse` the extraction oracles.  `datetime.fromisoformat(date_str)` raises on
a bad date before any fetch; both fallback records go through the pydantic
constructor (news_analyst.py 346 and 461). -/
def news_analyst_node (a : NewsStateArgs)
    (fetchCompany fetchMacro : Except String (List RawArticle))
    (llm : LLMOutcome NewsAnalysisOutput NewsAnalysisOutput.validb)
    (parse : ParseOracle NewsAnalysisOutput NewsAnalysisOutput.validb) :
    Except String NewsUpdate :=
  match fromIso a.date with
  | none => .error "date parse error"
  | some _ =>
    let raw_company := fetchOr fetchCompany
    let raw_mac := fetchOr fetchMacro
    let raw_total : Int := (raw_company.length : Int) + (raw_mac.length : Int)
    let company_clean := normalize_dict_list (dedupe_articles raw_company)
    let macro_clean := normalize_dict_list (dedupe_articles raw_mac)
    let relevant_items := filter_company_relevant company_clean macro_clean a.ticker
      a.aliases a.competitors a.sector_tags a.macro_terms a.relevance_threshold
    if relevant_items.isEmpty then
      match pydanticCheck NewsAnalysisOutput.validb
          (newsNoItemsFallback a.ticker a.lookback_days raw_total) with
      | .error pe => .error pe
      | .ok fb =>
        .ok ⟨[.ai ("News Analysis for " ++ a.ticker ++ ":\n" ++ fb.dumps)], fb.dumps⟩
    else
      let relevant_kept := limit (sortKept relevant_items) a.max_kept
      let compact_kept := compact relevant_kept
      let srcs := keptSources compact_kept
      let unique_topics := estimate_unique_topics compact_kept
      let fb (e : String) : Except String NewsAnalysisOutput :=
        pydanticCheck NewsAnalysisOutput.validb
          (newsParseFallback e a.lookback_days (compact_kept.length : Int) srcs
            (unique_topics : Int) raw_total)
      let result : Except String NewsAnalysisOutput :=
        match llm with
        | .structured (.ok v) => .ok v.1
        | .structured (.error e) => fb e
        | .raw (.ok t) =>
          match parse (stripFencesNews t.data) with
          | .ok v => .ok v.1
          | .error e => fb e
        | .raw (.error e) => fb e
      match result with
      | .error pe => .error pe
      | .ok rj =>
        .ok ⟨[.human ("Analyze last " ++ toString a.lookback_days ++
                " days of company-relevant news for " ++ a.ticker ++ " as of " ++ a.date),
              .ai ("News Analysis for " ++ a.ticker ++ ":\n\n" ++ rj.dumps)], rj.dumps⟩

/-! ## Projections used by the theorem statements -/

/-- The trace of a completed run. -/
def resTrace : Except String (TradingState × List String) → Option (List String)
  | .ok (_, tr) => some tr
  | .error _ => none

/-- The final state of a completed run. -/
def resState : Except String (TradingState × List String) → Option TradingState
  | .ok (st, _) => some st
  | .error _ => none

/-- The update a node returned, when it returned one. -/
def okUpdate : Except String StateUpdate → Option StateUpdate
  | .ok u => some u
  | .error _ => none

/-- The transcript shape of a node's update: the constructor kinds of the
messages it wrote. -/
def msgShape (r : Except String StateUpdate) : Option (List MessageKind) :=
  (okUpdate r).bind fun u => u.messages.map (List.map Message.kind)

/-- What claim C2 asserts of a completed run's final state: five non-empty
serialized stage records and an enumerated decision label. -/
def finalStateOK : Option TradingState → Prop
  | some st =>
    st.market_analysis ≠ "" ∧ st.fundamental_analysis ≠ "" ∧
    st.bull_argument ≠ "" ∧ st.bear_argument ≠ "" ∧ st.supervisor_decision ≠ "" ∧
    st.decision ∈ consensusLabels
  | none => False

/-! # Theorems -/

/-! ## Text-helper lemmas -/

theorem isSub_append {p t : List Char} (e : List Char) (h : isSub p t = true) :
    isSub p (t ++ e) = true := by
  simp only [isSub, decide_eq_true_eq] at h ⊢
  exact h.trans ((t.prefix_append e).isInfix)

theorem length_ltrimChars_le (l : List Char) : (ltrimChars l).length ≤ l.length :=
  (List.dropWhile_suffix isWsChar).sublist.length_le

theorem length_rtrimChars_le (l : List Char) : (rtrimChars l).length ≤ l.length := by
  have := (List.dropWhile_suffix (l := l.reverse) isWsChar).sublist.length_le
  simpa [rtrimChars] using this

theorem rtrimChars_append_nl (l : List Char) : rtrimChars (l ++ ['\n']) = rtrimChars l := by
  simp [rtrimChars, List.dropWhile, isWsChar]

theorem ltrimChars_cons_nws {c : Char} (l : List Char) (hc : isWsChar c = false) :
    ltrimChars (c :: l) = c :: l := by
  simp [ltrimChars, List.dropWhile, hc]

theorem rtrimChars_append_nws {d : Char} (l : List Char) (hd : isWsChar d = false) :
    rtrimChars (l ++ [d]) = l ++ [d] := by
  simp [rtrimChars, List.dropWhile, hd]

/-- A string already equal to its own strip is unchanged when wrapped in the
single newlines that fence stripping leaves behind. -/
theorem trimChars_pad (s : List Char) (h : trimChars s = s) :
    trimChars ('\n' :: (s ++ ['\n'])) = s := by
  cases s with
  | nil => rfl
  | cons c cs =>
    have hc : isWsChar c = false := by
      by_contra hc'
      have hc : isWsChar c = true := by simpa using hc'
      have h1 : trimChars (c :: cs) = trimChars cs := by
        simp [trimChars, ltrimChars, List.dropWhile, hc]
      rw [h1] at h
      have hlen : (trimChars cs).length ≤ cs.length :=
        le_trans (length_rtrimChars_le _) (length_ltrimChars_le _)
      have := congrArg List.length h
      simp at this
      omega
    have hl : ltrimChars (c :: cs) = c :: cs := ltrimChars_cons_nws cs hc
    have hr : rtrimChars (c :: cs) = c :: cs := by
      have : trimChars (c :: cs) = rtrimChars (c :: cs) := by rw [trimChars, hl]
      rw [← this, h]
    have h2 : ltrimChars ('\n' :: ((c :: cs) ++ ['\n'])) = (c :: cs) ++ ['\n'] := by
      have : ltrimChars ('\n' :: ((c :: cs) ++ ['\n'])) = ltrimChars ((c :: cs) ++ ['\n']) := by
        simp [ltrimChars, List.dropWhile, isWsChar]
      rw [this]
      exact ltrimChars_cons_nws _ hc
    rw [trimChars, h2, rtrimChars_append_nl, hr]

/-- A list that starts and ends with a non-whitespace character is fixed by
`trimChars`. -/
theorem trimChars_eq_self {c d : Char} (x : List Char)
    (hc : isWsChar c = false) (hd : isWsChar d = false) :
    trimChars (c :: (x ++ [d])) = c :: (x ++ [d]) := by
  rw [trimChars, ltrimChars_cons_nws _ hc]
  have : c :: (x ++ [d]) = (c :: x) ++ [d] := by simp
  rw [this, rtrimChars_append_nws _ hd]

/-! ## Serialization lemmas -/

theorem render_obj_ne_empty (fs : List (String × JVal)) :
    JVal.render (JVal.obj fs) ≠ "" := by
  intro h
  have := congrArg String.length h
  simp [JVal.render, String.length_append] at this
  exact absurd this.1.1 (by decide)

theorem marketDumps_ne_empty (r : MarketAnalysisOutput) : r.dumps ≠ "" :=
  render_obj_ne_empty _

theorem fundDumps_ne_empty (r : FundamentalAnalysisOutput) :
    r.dumps ≠ "" :=
  render_obj_ne_empty _

theorem bullDumps_ne_empty (r : BullCaseOutput) : r.dumps ≠ "" :=
  render_obj_ne_empty _

theorem bearDumps_ne_empty (r : BearCaseOutput) : r.dumps ≠ "" :=
  render_obj_ne_empty _

theorem supDumps_ne_empty (r : SupervisorDecision) : r.dumps ≠ "" :=
  render_obj_ne_empty _

/-! ## Fence-stripping lemmas (claim C7) -/

theorem isPrefixOf_append_self (p r : List Char) : p.isPrefixOf (p ++ r) = true :=
  List.isPrefixOf_iff_prefix.mpr (List.prefix_append _ _)

theorem isSuffixOf_append_self (r p : List Char) : p.isSuffixOf (r ++ p) = true :=
  List.isSuffixOf_iff_suffix.mpr (List.suffix_append _ _)

theorem drop7_fenceJson (r : List Char) : (fenceJson ++ r).drop 7 = r := by
  have h : fenceJson.length = 7 := rfl
  rw [← h, List.drop_left]

theorem drop3_fence3 (r : List Char) : (fence3 ++ r).drop 3 = r := by
  have h : fence3.length = 3 := rfl
  rw [← h, List.drop_left]

theorem fence3_isPrefixOf_nl (l : List Char) : fence3.isPrefixOf ('\n' :: l) = false := by
  show (btick == '\n' && List.isPrefixOf [btick, btick] l) = false
  rw [show (btick == '\n') = false by decide, Bool.false_and]

theorem fenceJson_isPrefixOf_fence3_nl (l : List Char) :
    fenceJson.isPrefixOf (fence3 ++ ('\n' :: l)) = false := by
  show (btick == btick && (btick == btick && (btick == btick &&
    ('j' == '\n' && List.isPrefixOf ['s', 'o', 'n'] l)))) = false
  rw [show ('j' == '\n') = false by decide, Bool.false_and]
  simp

theorem dropEnd3_append_fence3 (x : List Char) : dropEnd3 (x ++ fence3) = x := by
  have hl : (x ++ fence3).length = x.length + 3 := by simp [fence3]
  rw [dropEnd3, hl, Nat.add_sub_cancel, List.take_left]

theorem trim_json_wrap (s : List Char) :
    trimChars (fenceJson ++ ('\n' :: (s ++ ('\n' :: fence3)))) =
      fenceJson ++ ('\n' :: (s ++ ('\n' :: fence3))) := by
  have hshape : fenceJson ++ ('\n' :: (s ++ ('\n' :: fence3))) =
      btick :: (([btick, btick, 'j', 's', 'o', 'n'] ++
        ('\n' :: (s ++ ['\n', btick, btick]))) ++ [btick]) := by
    simp [fenceJson, fence3]
  rw [hshape]
  exact trimChars_eq_self _ (by decide) (by decide)

theorem trim_bare_wrap (s : List Char) :
    trimChars (fence3 ++ ('\n' :: (s ++ ('\n' :: fence3)))) =
      fence3 ++ ('\n' :: (s ++ ('\n' :: fence3))) := by
  have hshape : fence3 ++ ('\n' :: (s ++ ('\n' :: fence3))) =
      btick :: (([btick, btick] ++ ('\n' :: (s ++ ['\n', btick, btick]))) ++ [btick]) := by
    simp [fence3]
  rw [hshape]
  exact trimChars_eq_self _ (by decide) (by decide)

theorem tail_as_suffix (s : List Char) :
    '\n' :: (s ++ ('\n' :: fence3)) = ('\n' :: (s ++ ['\n'])) ++ fence3 := by
  simp

/-- After the two prefix-strips, the fenced response sits at
`'\n' :: s ++ '\n' :: "```"`; the suffix strip then leaves `'\n' :: s ++ '\n'`. -/
theorem stripFencesNews_wrap (tag s : List Char)
    (htag : tag = "json".data ∨ tag = []) :
    stripFencesNews (fenceWrap tag s) = '\n' :: (s ++ ['\n']) := by
  rcases htag with h | h <;> subst h
  · have hw : fenceWrap "json".data s = fenceJson ++ ('\n' :: (s ++ ('\n' :: fence3))) := by
      rw [show ("json".data) = ['j', 's', 'o', 'n'] from rfl]
      rfl
    rw [hw]
    unfold stripFencesNews
    rw [trim_json_wrap]
    simp only [isPrefixOf_append_self, eq_self_iff_true, if_true, drop7_fenceJson,
      fence3_isPrefixOf_nl, Bool.false_eq_true, if_false]
    rw [tail_as_suffix]
    simp only [isSuffixOf_append_self, eq_self_iff_true, if_true, dropEnd3_append_fence3]
  · have hw : fenceWrap [] s = fence3 ++ ('\n' :: (s ++ ('\n' :: fence3))) := by
      simp [fenceWrap]
    rw [hw]
    unfold stripFencesNews
    rw [trim_bare_wrap]
    simp only [fenceJson_isPrefixOf_fence3_nl, Bool.false_eq_true, if_false,
      isPrefixOf_append_self, eq_self_iff_true, if_true, drop3_fence3]
    rw [tail_as_suffix]
    simp only [isSuffixOf_append_self, eq_self_iff_true, if_true, dropEnd3_append_fence3]

/-- An unfenced response that is already stripped and carries no fence marker
at either end passes through the cleaning unchanged. -/
theorem stripFencesNews_id (s : List Char) (hs : trimChars s = s)
    (hnp : fence3.isPrefixOf s = false) (hns : fence3.isSuffixOf s = false) :
    stripFencesNews s = s := by
  have hj : fenceJson.isPrefixOf s = false := by
    cases hjp : fenceJson.isPrefixOf s with
    | false => rfl
    | true =>
      have h1 : fenceJson <+: s := List.isPrefixOf_iff_prefix.mp hjp
      have h2 : fence3 <+: s := (List.prefix_append fence3 ['j', 's', 'o', 'n']).trans h1
      have h3 : fence3.isPrefixOf s = true := List.isPrefixOf_iff_prefix.mpr h2
      rw [hnp] at h3
      exact absurd h3 (by simp)
  unfold stripFencesNews
  rw [hs]
  simp only [hj, hnp, hns, Bool.false_eq_true, if_false]

/-- The V2 strip is the news strip followed by one more `strip()`. -/
theorem stripFencesV2_eq (t : List Char) :
    stripFencesV2 t = trimChars (stripFencesNews t) := rfl

/-- C7 (amended): in the tier-2 raw-text path, a valid JSON document wrapped
in exactly one pair of code fences parses and validates to the same record as
the identical response with no fences, when the opening fence carries no
language tag or exactly the tag `json`: after fence cleaning the two texts
are identical up to surrounding whitespace (and identical outright for the V2
stages, which re-strip), and `json.loads` ignores surrounding whitespace.
Any other language tag survives the cleaning as leading text (see the
counterexample theorem). -/
theorem C7_fenced_vs_unfenced (s : List Char) (tag : List Char)
    (hs : trimChars s = s) (hnp : fence3.isPrefixOf s = false)
    (hns : fence3.isSuffixOf s = false) (htag : tag = "json".data ∨ tag = []) :
    stripFencesV2 (fenceWrap tag s) = stripFencesV2 s ∧
    trimChars (stripFencesNews (fenceWrap tag s)) = trimChars (stripFencesNews s) := by
  have hn := stripFencesNews_wrap tag s htag
  have hid := stripFencesNews_id s hs hnp hns
  refine ⟨?_, ?_⟩
  · rw [stripFencesV2_eq, stripFencesV2_eq, hn, hid, trimChars_pad s hs, hs]
  · rw [hn, hid, trimChars_pad s hs, hs]

/-- Witness for C7: the concrete document `{"a": 1}` fenced with tag `json`. -/
theorem C7_fenced_vs_unfenced_witness :
    stripFencesV2 (fenceWrap ("json".data) ("\x7b\"a\": 1\x7d".data)) =
      stripFencesV2 ("\x7b\"a\": 1\x7d".data) ∧
    trimChars (stripFencesNews (fenceWrap ("json".data) ("\x7b\"a\": 1\x7d".data))) =
      trimChars (stripFencesNews ("\x7b\"a\": 1\x7d".data)) :=
  C7_fenced_vs_unfenced _ _ (by decide) (by decide) (by decide) (Or.inl rfl)

/-- C7 counterexample: the claim admits an arbitrary language tag, but the
cleaning recognises only `"```json"`; with tag `yaml` the stripped text still
begins with the letters `yaml`, which no JSON parser accepts, so the fenced
response does not parse to the same record as the unfenced one. -/
theorem C7_counterexample :
    stripFencesV2 (fenceWrap ("yaml".data) ("\x7b\"a\": 1\x7d".data)) ≠
      stripFencesV2 ("\x7b\"a\": 1\x7d".data) ∧
    (ltrimChars (stripFencesV2 (fenceWrap ("yaml".data) ("\x7b\"a\": 1\x7d".data)))).head? =
      some 'y' := by
  decide

/-! ## Ranking lemmas and claim C3 -/

/-- Every effective timestamp is at least `datetime.min`'s. -/
theorem dtMin_le_tsEff (it : KeptArticle) : dtKey dtMin ≤ tsEff it := by
  rw [tsEff]
  cases fromIso (replaceZ it.published_at) with
  | none => exact le_refl _
  | some d =>
    show dtKey dtMin ≤ dtKey d
    rw [show dtKey dtMin = 0 from rfl, dtKey]
    exact Int.natCast_nonneg _

/-- C3 (amended): `_sort_kept` returns a permutation of its input ordered by
relevance score non-increasing and, among equal scores, by effective parsed
publish timestamp non-increasing; an item whose `published_at` cannot be
parsed sorts with the earliest representable time (`datetime.min`), so it
never ranks above an equal-score item whose parsable timestamp is *later
than* that earliest representable instant.  (An equal-score item whose
parsable timestamp *equals* `datetime.min` — e.g. `0001-01-01T00:00:00` —
ties with it, and stable order keeps whichever came first; see the
counterexample.) -/
theorem C3_rank_order (l : List KeptArticle) :
    (sortKept l).Perm l ∧
    (∀ (i j : Nat) (hi : i < (sortKept l).length) (hj : j < (sortKept l).length),
      i < j →
        (sortKept l)[j].relevance_score ≤ (sortKept l)[i].relevance_score ∧
          ((sortKept l)[i].relevance_score = (sortKept l)[j].relevance_score →
            tsEff (sortKept l)[j] ≤ tsEff (sortKept l)[i])) ∧
    (∀ (i j : Nat) (hi : i < (sortKept l).length) (hj : j < (sortKept l).length),
      i < j →
      fromIso (replaceZ ((sortKept l)[i].published_at)) = none →
      (sortKept l)[i].relevance_score = (sortKept l)[j].relevance_score →
      tsEff (sortKept l)[j] ≠ dtKey dtMin → False) := by
  have hsorted : (sortKept l).Sorted sortLE := List.sorted_insertionSort sortLE l
  have hrel : ∀ (i j : Nat) (hi : i < (sortKept l).length)
      (hj : j < (sortKept l).length), i < j → sortLE (sortKept l)[i] (sortKept l)[j] := by
    intro i j hi hj hij
    have := hsorted.rel_get_of_lt (a := ⟨i, hi⟩) (b := ⟨j, hj⟩) hij
    simpa using this
  refine ⟨List.perm_insertionSort sortLE l, ?_, ?_⟩
  · intro i j hi hj hij
    rcases hrel i j hi hj hij with h | ⟨he, ht⟩
    · exact ⟨le_of_lt h, fun hk => absurd (hk ▸ h) (lt_irrefl _)⟩
    · exact ⟨le_of_eq he.symm, fun _ => ht⟩
  · intro i j hi hj hij hnone heq hne
    rcases hrel i j hi hj hij with h | ⟨_, ht⟩
    · exact absurd (heq ▸ h) (lt_irrefl _)
    · have hmin : tsEff (sortKept l)[i] = dtKey dtMin := by
        rw [tsEff, hnone]
      rw [hmin] at ht
      exact hne (le_antisymm ht (dtMin_le_tsEff _))

/-- Witness for C3: a two-element concrete list. -/
theorem C3_rank_order_witness :
    (sortKept [⟨"a", "2024-01-02T00:00:00", "s", "u", "x", mkRat 1 2, "macro"⟩,
              ⟨"b", "2024-01-03T00:00:00", "s", "u", "x", mkRat 1 2, "macro"⟩]).Perm
      [⟨"a", "2024-01-02T00:00:00", "s", "u", "x", mkRat 1 2, "macro"⟩,
       ⟨"b", "2024-01-03T00:00:00", "s", "u", "x", mkRat 1 2, "macro"⟩] ∧
    (sortKept [⟨"a", "2024-01-02T00:00:00", "s", "u", "x", mkRat 1 2, "macro"⟩,
               ⟨"b", "2024-01-03T00:00:00", "s", "u", "x", mkRat 1 2, "macro"⟩])[1].relevance_score ≤
      (sortKept [⟨"a", "2024-01-02T00:00:00", "s", "u", "x", mkRat 1 2, "macro"⟩,
                 ⟨"b", "2024-01-03T00:00:00", "s", "u", "x", mkRat 1 2, "macro"⟩])[0].relevance_score := by
  refine ⟨(C3_rank_order _).1, ?_⟩
  exact ((C3_rank_order _).2.1 0 1 (by decide) (by decide) (by decide)).1

/-- C3 counterexample: the claim as stated says an unparsable-timestamp item
never ranks above an equal-score item with a parsable timestamp; but
`"0001-01-01T00:00:00"` parses to exactly `datetime.min`, the stand-in for
unparsable timestamps, so the two sort keys tie and the stable sort leaves
the unparsable item (listed first) ranked above the parsable one. -/
theorem C3_counterexample :
    sortKept [⟨"a", "", "s", "u", "x", mkRat 1 2, "macro"⟩,
              ⟨"b", "0001-01-01T00:00:00", "s", "u", "x", mkRat 1 2, "macro"⟩] =
      [⟨"a", "", "s", "u", "x", mkRat 1 2, "macro"⟩,
       ⟨"b", "0001-01-01T00:00:00", "s", "u", "x", mkRat 1 2, "macro"⟩] ∧
    fromIso (replaceZ "") = none ∧
    fromIso (replaceZ "0001-01-01T00:00:00") = some dtMin := by
  decide

/-! ## Relevance-scoring lemmas and claim C4 -/

theorem relText_append (title snippet e : List Char) :
    relText title (snippet ++ e) = relText title snippet ++ lowerChars e := by
  simp [relText, lowerChars]

theorem ite_score_mono {c1 c2 : Bool} {w : ℚ} (hw : 0 ≤ w)
    (h : c1 = true → c2 = true) :
    (if c1 then w else 0) ≤ (if c2 then w else 0) := by
  cases c1 with
  | false =>
    cases c2 with
    | false => simp
    | true => simpa using hw
  | true => simp [h rfl]

theorem hitScore_mono (terms : List (List Char)) {w : ℚ} (t e : List Char)
    (hw : 0 ≤ w) : hitScore terms w t ≤ hitScore terms w (t ++ e) := by
  apply List.sum_le_sum
  intro tm _
  exact ite_score_mono hw (fun h => isSub_append e h)

theorem tickerHit_append {tk t : List Char} (e : List Char)
    (h : tickerHit tk t = true) : tickerHit tk (t ++ e) = true := by
  simp only [tickerHit, Bool.and_eq_true] at h ⊢
  exact ⟨h.1, isSub_append e h.2⟩

theorem rawRelevance_mono (ticker title snippet e : List Char)
    (aliases competitors sector_tags macro_terms : List (List Char)) :
    rawRelevance ticker title snippet aliases competitors sector_tags macro_terms ≤
      rawRelevance ticker title (snippet ++ e) aliases competitors sector_tags macro_terms := by
  unfold rawRelevance
  rw [relText_append]
  refine sub_le_sub_right (add_le_add (add_le_add (add_le_add (add_le_add ?_ ?_) ?_) ?_) ?_) _
  · exact ite_score_mono (by decide) (fun h => tickerHit_append _ h)
  · exact hitScore_mono _ _ _ (by decide)
  · exact hitScore_mono _ _ _ (by decide)
  · exact hitScore_mono _ _ _ (by decide)
  · exact hitScore_mono _ _ _ (by decide)

/-- C4: `compute_relevance` always returns a score clamped into [0, 1]; and
appending one additional occurrence of any alias, competitor, sector-tag or
macro-term entry (with arbitrary padding) to the item's snippet — i.e.
extending the title+snippet search text — never decreases the score.  (The
proof of the second part shows the stronger fact that *any* extension of the
text never decreases the score.) -/
theorem C4_score_clamped_monotone :
    (∀ (ticker title snippet : List Char)
        (aliases competitors sector_tags macro_terms : List (List Char)),
      0 ≤ (compute_relevance ticker title snippet
            aliases competitors sector_tags macro_terms).1 ∧
      (compute_relevance ticker title snippet
            aliases competitors sector_tags macro_terms).1 ≤ 1) ∧
    (∀ (ticker title snippet pad w : List Char)
        (aliases competitors sector_tags macro_terms : List (List Char)),
      w ∈ aliases ++ competitors ++ sector_tags ++ macro_terms →
      (compute_relevance ticker title snippet
          aliases competitors sector_tags macro_terms).1 ≤
        (compute_relevance ticker title (snippet ++ (pad ++ w))
          aliases competitors sector_tags macro_terms).1) := by
  constructor
  · intro tk ti sn A C S M
    constructor
    · exact le_max_left 0 _
    · exact max_le (by norm_num) (min_le_right _ 1)
  · intro tk ti sn pad w A C S M _
    show max 0 (min (rawRelevance tk ti sn A C S M) 1) ≤
      max 0 (min (rawRelevance tk ti (sn ++ (pad ++ w)) A C S M) 1)
    exact max_le_max le_rfl (min_le_min (rawRelevance_mono tk ti sn (pad ++ w) A C S M) le_rfl)

/-- Witness for C4: a concrete alias occurrence appended to the snippet. -/
theorem C4_score_clamped_monotone_witness :
    (0 ≤ (compute_relevance "amd".data "short title".data "body text".data
        ["ryzen".data] ["intel".data] ["chips".data] ["tariff".data]).1 ∧
     (compute_relevance "amd".data "short title".data "body text".data
        ["ryzen".data] ["intel".data] ["chips".data] ["tariff".data]).1 ≤ 1) ∧
    (compute_relevance "amd".data "short title".data "body text".data
        ["ryzen".data] ["intel".data] ["chips".data] ["tariff".data]).1 ≤
      (compute_relevance "amd".data "short title".data
        ("body text".data ++ (" ".data ++ "ryzen".data))
        ["ryzen".data] ["intel".data] ["chips".data] ["tariff".data]).1 :=
  ⟨C4_score_clamped_monotone.1 _ _ _ _ _ _ _,
   C4_score_clamped_monotone.2 "amd".data "short title".data "body text".data
     " ".data "ryzen".data _ _ _ _ (by decide)⟩

/-! ## Deduplication lemmas and claim C5 -/

theorem dedupeGo_sublist (l : List RawArticle) : ∀ seen, (dedupeGo seen l).Sublist l := by
  induction l with
  | nil => intro seen; exact List.Sublist.refl _
  | cons it rest ih =>
    intro seen
    rw [dedupeGo]
    split
    · exact (ih seen).cons it
    · exact (ih _).cons₂ it

theorem dedupeGo_congr (l : List RawArticle) : ∀ {s t : List String},
    (∀ k, k ∈ s ↔ k ∈ t) → dedupeGo s l = dedupeGo t l := by
  induction l with
  | nil => intro s t _; rfl
  | cons it rest ih =>
    intro s t hst
    by_cases hm : dkey it ∈ s
    · rw [dedupeGo, if_pos hm, dedupeGo, if_pos ((hst _).mp hm), ih hst]
    · rw [dedupeGo, if_neg hm, dedupeGo, if_neg (fun h => hm ((hst _).mpr h))]
      have : ∀ k, k ∈ dkey it :: s ↔ k ∈ dkey it :: t := by
        intro k; simp [hst k]
      rw [ih this]

theorem dedupeGo_key_cons (k : String) (l : List RawArticle) : ∀ s : List String,
    dedupeGo (k :: s) l = dedupeGo s (l.filter (fun y => !(dkey y == k))) := by
  induction l with
  | nil => intro s; rfl
  | cons it rest ih =>
    intro s
    by_cases hk : dkey it = k
    · have hf : (!(dkey it == k)) = false := by simp [hk]
      rw [List.filter_cons_of_neg (by simp [hf]), dedupeGo,
        if_pos (by simp [hk]), ih s]
    · have hf : (!(dkey it == k)) = true := by simp [hk]
      rw [List.filter_cons_of_pos (by simp [hf])]
      by_cases hm : dkey it ∈ s
      · rw [dedupeGo, if_pos (by simp [hm]), dedupeGo, if_pos hm, ih s]
      · rw [dedupeGo, if_neg (by simp [hk, hm]), dedupeGo, if_neg hm]
        have hswap : dedupeGo (dkey it :: k :: s) rest = dedupeGo (k :: dkey it :: s) rest :=
          dedupeGo_congr rest (by intro x; constructor <;> (intro h; simp at h ⊢; tauto))
        rw [hswap, ih (dkey it :: s)]

theorem dedupeGo_keys_nodup (l : List RawArticle) : ∀ s : List String,
    ((dedupeGo s l).map dkey).Nodup ∧ ∀ a ∈ dedupeGo s l, dkey a ∉ s := by
  induction l with
  | nil => intro s; exact ⟨List.nodup_nil, fun a ha => by simp [dedupeGo] at ha⟩
  | cons it rest ih =>
    intro s
    by_cases hm : dkey it ∈ s
    · rw [dedupeGo, if_pos hm]; exact ih s
    · rw [dedupeGo, if_neg hm]
      obtain ⟨ihnd, ihmem⟩ := ih (dkey it :: s)
      refine ⟨?_, ?_⟩
      · rw [List.map_cons, List.nodup_cons]
        refine ⟨?_, ihnd⟩
        intro hmem
        obtain ⟨b, hb, hbk⟩ := List.mem_map.mp hmem
        exact (ihmem b hb) (hbk ▸ List.mem_cons_self _ _)
      · intro a ha
        rcases List.mem_cons.mp ha with rfl | ha'
        · exact hm
        · intro hs
          exact (ihmem a ha') (List.mem_cons_of_mem _ hs)

theorem dedupeGo_complete (l : List RawArticle) : ∀ (s : List String) (x : RawArticle),
    x ∈ l → dkey x ∈ s ∨ dkey x ∈ (dedupeGo s l).map dkey := by
  induction l with
  | nil => intro s x hx; cases hx
  | cons it rest ih =>
    intro s x hx
    by_cases hm : dkey it ∈ s
    · rw [dedupeGo, if_pos hm]
      rcases List.mem_cons.mp hx with rfl | hx'
      · exact Or.inl hm
      · exact ih s x hx'
    · rw [dedupeGo, if_neg hm]
      rcases List.mem_cons.mp hx with rfl | hx'
      · exact Or.inr (by simp)
      · rcases ih (dkey it :: s) x hx' with h | h
        · rcases List.mem_cons.mp h with he | hs
          · exact Or.inr (by simp [he])
          · exact Or.inl hs
        · exact Or.inr (by simp [h])

/-- C5: `_dedupe_articles` keeps, for each canonical key (`dkey`: the md5 of
the stripped, lowercased locator, else of the leading 64 title characters),
exactly the first item encountered, drops every later item with the same key,
and preserves the relative order of the kept items: the output is a sublist
of the input; it satisfies the first-seen-wins recursion (the head is kept
and all later items sharing its key are dropped); no two kept items share a
key; and every input item's key is represented among the kept items. -/
theorem C5_dedupe_first_seen :
    (∀ l : List RawArticle, (dedupe_articles l).Sublist l) ∧
    (∀ (x : RawArticle) (l : List RawArticle),
      dedupe_articles (x :: l) =
        x :: dedupe_articles (l.filter (fun y => !(dkey y == dkey x)))) ∧
    (∀ l : List RawArticle, ((dedupe_articles l).map dkey).Nodup) ∧
    (∀ (l : List RawArticle) (x : RawArticle), x ∈ l →
      dkey x ∈ (dedupe_articles l).map dkey) := by
  refine ⟨fun l => dedupeGo_sublist l [], fun x l => ?_, fun l => (dedupeGo_keys_nodup l []).1,
    fun l x hx => ?_⟩
  · rw [dedupe_articles, dedupeGo, if_neg (by simp), dedupe_articles,
      dedupeGo_key_cons (dkey x) l []]
  · rcases dedupeGo_complete l [] x hx with h | h
    · cases h
    · exact h

/-- Witness for C5: a three-item list in which the first and third items
share a locator key. -/
theorem C5_dedupe_first_seen_witness :
    (dedupe_articles
        [{ url := "https://X.com/a " : RawArticle },
         { link := "https://y.com/b" : RawArticle },
         { url := "https://x.com/a" : RawArticle }]).Sublist
      [{ url := "https://X.com/a " : RawArticle },
       { link := "https://y.com/b" : RawArticle },
       { url := "https://x.com/a" : RawArticle }] ∧
    dkey { url := "https://x.com/a" : RawArticle } ∈
      (dedupe_articles
        [{ url := "https://X.com/a " : RawArticle },
         { link := "https://y.com/b" : RawArticle },
         { url := "https://x.com/a" : RawArticle }]).map dkey :=
  ⟨C5_dedupe_first_seen.1 _,
   C5_dedupe_first_seen.2.2.2 _ _ (by simp)⟩

/-! ## Fallback-record validity lemmas -/

theorem marketDataErrorOutput_validb (t e : String) :
    (marketDataErrorOutput t e).validb = true := rfl

theorem marketParseFallback_validb (t e : String) :
    (marketParseFallback t e).validb = true := rfl

theorem fundShortCircuitOutput_validb (t : String) (errs : List String) :
    (fundShortCircuitOutput t errs).validb = false := rfl

theorem fundParseFallback_validb (t e : String) :
    (fundParseFallback t e).validb = false := rfl

theorem bullParseFallback_validb (t e : String) :
    (bullParseFallback t e).validb = true := rfl

theorem bearParseFallback_validb (t e : String) :
    (bearParseFallback t e).validb = true := rfl

theorem supParseFallback_validb (t e : String) :
    (supParseFallback t e).validb = true := rfl

/-- C1: the tier-3 guarantee.  The claim is RIGHT as a specification and the
code breaks it in one place: the fundamentals stage's extraction fallback
dict sets `revenue_growth_trend` and `earnings_growth_trend` to
`"uncertain"`, which is not one of the five labels its own
`GrowthMetrics` `Literal` declares (`"uncertain"` is legal only for
`growth_sustainability` — an evident slip).  Evaluated at the failing input
(a generative call that raises, any parse oracle), the fundamentals stage
returns a record that does not validate, while the market, bull, bear and
supervisor fallbacks all validate; no exception escapes the extraction in
any stage. -/
theorem C1_fundamentals_fallback_invalid :
    (extractWith
        ((.raw (.error "model call raised")) :
          LLMOutcome FundamentalAnalysisOutput FundamentalAnalysisOutput.validb)
        (fun _ => .error "unused") (fundParseFallback "AAPL")).validb = false ∧
    (extractWith
        ((.raw (.error "model call raised")) :
          LLMOutcome FundamentalAnalysisOutput FundamentalAnalysisOutput.validb)
        (fun _ => .error "unused")
        (fundParseFallback "AAPL")).growth.revenue_growth_trend = "uncertain" ∧
    growthTrendLabels.contains "uncertain" = false ∧
    (extractWith
        ((.raw (.error "model call raised")) :
          LLMOutcome MarketAnalysisOutput MarketAnalysisOutput.validb)
        (fun _ => .error "unused") (marketParseFallback "AAPL")).validb = true ∧
    (extractWith
        ((.raw (.error "model call raised")) :
          LLMOutcome BullCaseOutput BullCaseOutput.validb)
        (fun _ => .error "unused") (bullParseFallback "AAPL")).validb = true ∧
    (extractWith
        ((.raw (.error "model call raised")) :
          LLMOutcome BearCaseOutput BearCaseOutput.validb)
        (fun _ => .error "unused") (bearParseFallback "AAPL")).validb = true ∧
    (extractWith
        ((.raw (.error "model call raised")) :
          LLMOutcome SupervisorDecision SupervisorDecision.validb)
        (fun _ => .error "unused") (supParseFallback "AAPL")).validb = true := by
  refine ⟨rfl, rfl, rfl, rfl, rfl, rfl, rfl⟩

/-! ## Claim C6: collector-failure policy of the fundamentals stage -/

/-- C6 (amended): failed collector groups are recorded as placeholder
strings and, with at most three of the five groups failing, the stage
proceeds to invoke the model extraction; with four or more failing
(`len(errors) >= 4` — not only when *every* collector fails) it
short-circuits without any model call, and its static degraded record then
fails the stage's own schema validation (its `GrowthMetrics` trend fields
carry `"uncertain"`), so the short-circuit raises instead of returning the
degraded record. -/
theorem C6_collector_failure_policy (tools : FundCollectors)
    (llm : LLMOutcome FundamentalAnalysisOutput FundamentalAnalysisOutput.validb)
    (parse : ParseOracle FundamentalAnalysisOutput FundamentalAnalysisOutput.validb)
    (st : TradingState) :
    ((fundErrors tools).length ≤ 3 →
      fundamentals_analyst_node tools llm parse st = .ok
        { messages := some
            [.human ("Perform fundamental analysis for " ++ st.ticker ++ " as of " ++ st.date),
             .ai ("Fundamental Analysis for " ++ st.ticker ++ ":\n\n" ++
               (extractWith llm parse (fundParseFallback st.ticker)).dumps)],
          fundamental_analysis :=
            some (extractWith llm parse (fundParseFallback st.ticker)).dumps }) ∧
    (4 ≤ (fundErrors tools).length →
      fundamentals_analyst_node tools llm parse st = .error "ValidationError") ∧
    (∀ e, tools.overview = .error e →
      ("company_overview", "Error fetching company overview for " ++ st.ticker) ∈
        fundDataCollected st.ticker tools) ∧
    (∀ e, tools.balance = .error e →
      ("balance_sheet_quarterly", "Error fetching balance sheet") ∈
        fundDataCollected st.ticker tools) ∧
    (∀ e, tools.income = .error e →
      ("income_statement_quarterly", "Error fetching income statement") ∈
        fundDataCollected st.ticker tools) ∧
    (∀ e, tools.cashflow = .error e →
      ("cash_flow_quarterly", "Error fetching cash flow") ∈
        fundDataCollected st.ticker tools) ∧
    (∀ e, tools.earnings = .error e →
      ("earnings", "Error fetching earnings data") ∈ fundDataCollected st.ticker tools) := by
  refine ⟨?_, ?_, ?_, ?_, ?_, ?_, ?_⟩
  · intro h
    simp only [fundamentals_analyst_node]
    rw [if_neg (by omega)]
  · intro h
    simp only [fundamentals_analyst_node]
    rw [if_pos h]
    simp [pydanticCheck, fundShortCircuitOutput_validb]
  · intro e he; simp [fundDataCollected, he]
  · intro e he; simp [fundDataCollected, he]
  · intro e he; simp [fundDataCollected, he]
  · intro e he; simp [fundDataCollected, he]
  · intro e he; simp [fundDataCollected, he]

/-- Witness for C6: one failed group out of five; the stage records the
placeholder and proceeds to extraction (here the model also raises, so the
extraction lands on its fallback dict). -/
theorem C6_collector_failure_policy_witness :
    fundamentals_analyst_node
        ⟨.error "boom", .ok ("bq", "ba"), .ok ("iq", "ia"), .ok ("cq", "ca"), .ok "e"⟩
        (.raw (.error "llm down")) (fun _ => .error "parse failed")
        (initialState "AAPL" "2024-01-15") = .ok
      { messages := some
          [.human ("Perform fundamental analysis for " ++ "AAPL" ++ " as of " ++ "2024-01-15"),
           .ai ("Fundamental Analysis for " ++ "AAPL" ++ ":\n\n" ++
             (extractWith
               ((.raw (.error "llm down")) :
                 LLMOutcome FundamentalAnalysisOutput FundamentalAnalysisOutput.validb)
               (fun _ => .error "parse failed")
               (fundParseFallback "AAPL")).dumps)],
        fundamental_analysis :=
          some (extractWith
            ((.raw (.error "llm down")) :
              LLMOutcome FundamentalAnalysisOutput FundamentalAnalysisOutput.validb)
            (fun _ => .error "parse failed")
            (fundParseFallback "AAPL")).dumps } ∧
    ("company_overview", "Error fetching company overview for " ++ "AAPL") ∈
      fundDataCollected "AAPL"
        ⟨.error "boom", .ok ("bq", "ba"), .ok ("iq", "ia"), .ok ("cq", "ca"), .ok "e"⟩ :=
  ⟨(C6_collector_failure_policy _ _ _ _).1 (by decide),
   (C6_collector_failure_policy
     ⟨.error "boom", .ok ("bq", "ba"), .ok ("iq", "ia"), .ok ("cq", "ca"), .ok "e"⟩
     (.raw (.error "llm down")) (fun _ => .error "parse failed")
     (initialState "AAPL" "2024-01-15")).2.2.1 "boom" rfl⟩

/-- C6 counterexample: with four of the five collector groups failing — some
but not all — the claim says the stage records placeholders and still
proceeds to the model call; instead it short-circuits without any model call
(the result is the same for distinct model oracles) and aborts on its own
record validation. -/
theorem C6_counterexample :
    fundamentals_analyst_node
        ⟨.ok "overview data", .error "boom", .error "boom", .error "boom", .error "boom"⟩
        (.raw (.ok "\x7b\x7d")) (fun _ => .error "parse failed")
        (initialState "AAPL" "2024-01-15") = .error "ValidationError" ∧
    fundamentals_analyst_node
        ⟨.ok "overview data", .error "boom", .error "boom", .error "boom", .error "boom"⟩
        (.structured (.error "different model outcome")) (fun _ => .error "parse failed")
        (initialState "AAPL" "2024-01-15") = .error "ValidationError" :=
  ⟨rfl, rfl⟩

/-! ## Claim C8: the news stage on empty or sub-threshold evidence -/

theorem newsNoItemsFallback_validb (t : String) (lb raw : Int)
    (h1 : 1 ≤ lb) (h2 : lb ≤ 30) :
    (newsNoItemsFallback t lb raw).validb = true := by
  have hshape : (newsNoItemsFallback t lb raw).validb =
      (decide (1 ≤ lb) && decide (lb ≤ 30) && true && true && true && true && true) := rfl
  rw [hshape]
  simp [h1, h2]

/-- C8 (amended): when both raw streams come back empty (also after a fetch
exception) or nothing clears the relevance threshold, the news stage returns
without raising — provided the caller-supplied lookback window lies inside
the schema's declared 1–30 bounds: the update carries the degraded record,
which validates, reports zero kept articles and zero sources in its coverage
stats, and has all four company-impact fields `"uncertain"`.  (Outside those
bounds the fallback's own pydantic construction fails validation and the
stage raises; see the counterexample.) -/
theorem C8_news_degraded (a : NewsStateArgs)
    (fetchC fetchM : Except String (List RawArticle))
    (llm : LLMOutcome NewsAnalysisOutput NewsAnalysisOutput.validb)
    (parse : ParseOracle NewsAnalysisOutput NewsAnalysisOutput.validb)
    (hdate : fromIso a.date ≠ none)
    (hlb1 : 1 ≤ a.lookback_days) (hlb2 : a.lookback_days ≤ 30)
    (hkept : (fetchOr fetchC = [] ∧ fetchOr fetchM = []) ∨
      filter_company_relevant (normalize_dict_list (dedupe_articles (fetchOr fetchC)))
        (normalize_dict_list (dedupe_articles (fetchOr fetchM))) a.ticker a.aliases
        a.competitors a.sector_tags a.macro_terms a.relevance_threshold = []) :
    news_analyst_node a fetchC fetchM llm parse = .ok
      ⟨[.ai ("News Analysis for " ++ a.ticker ++ ":\n" ++
          (newsNoItemsFallback a.ticker a.lookback_days
            ((fetchOr fetchC).length + (fetchOr fetchM).length : Int)).dumps)],
        (newsNoItemsFallback a.ticker a.lookback_days
          ((fetchOr fetchC).length + (fetchOr fetchM).length : Int)).dumps⟩ ∧
    (newsNoItemsFallback a.ticker a.lookback_days
        ((fetchOr fetchC).length + (fetchOr fetchM).length : Int)).validb = true ∧
    (newsNoItemsFallback a.ticker a.lookback_days
        ((fetchOr fetchC).length + (fetchOr fetchM).length : Int)).coverage_stats.lookup
        "articles" = some 0 ∧
    (newsNoItemsFallback a.ticker a.lookback_days
        ((fetchOr fetchC).length + (fetchOr fetchM).length : Int)).coverage_stats.lookup
        "sources" = some 0 ∧
    (newsNoItemsFallback a.ticker a.lookback_days
        ((fetchOr fetchC).length + (fetchOr fetchM).length : Int)).sources = [] ∧
    (newsNoItemsFallback a.ticker a.lookback_days
        ((fetchOr fetchC).length + (fetchOr fetchM).length : Int)).company_impact =
      ⟨"uncertain", "uncertain", "uncertain", "uncertain",
       "No relevant articles were identified within the selected window."⟩ := by
  have hrel : filter_company_relevant
      (normalize_dict_list (dedupe_articles (fetchOr fetchC)))
      (normalize_dict_list (dedupe_articles (fetchOr fetchM))) a.ticker a.aliases
      a.competitors a.sector_tags a.macro_terms a.relevance_threshold = [] := by
    rcases hkept with ⟨hc, hm⟩ | h
    · rw [hc, hm]; rfl
    · exact h
  refine ⟨?_, newsNoItemsFallback_validb _ _ _ hlb1 hlb2, rfl, rfl, rfl, rfl⟩
  cases hd : fromIso a.date with
  | none => exact absurd hd hdate
  | some d =>
    simp only [news_analyst_node, hd, hrel, List.isEmpty_nil, if_true, pydanticCheck,
      newsNoItemsFallback_validb _ _ _ hlb1 hlb2]

/-- Witness for C8: empty streams, lookback 7. -/
theorem C8_news_degraded_witness :
    news_analyst_node ⟨"AAPL", "2024-01-15", 7, [], [], [], [], mkRat 6 10, 80⟩
        (.ok []) (.ok []) (.raw (.error "x")) (fun _ => .error "p") = .ok
      ⟨[.ai ("News Analysis for " ++ "AAPL" ++ ":\n" ++
          (newsNoItemsFallback "AAPL" 7
            ((fetchOr (.ok [])).length + (fetchOr (.ok [])).length : Int)).dumps)],
        (newsNoItemsFallback "AAPL" 7
          ((fetchOr (.ok [])).length + (fetchOr (.ok [])).length : Int)).dumps⟩ ∧
    (newsNoItemsFallback "AAPL" 7
        ((fetchOr (Except.ok ([] : List RawArticle))).length +
          (fetchOr (Except.ok ([] : List RawArticle))).length : Int)).validb = true :=
  ⟨(C8_news_degraded ⟨"AAPL", "2024-01-15", 7, [], [], [], [], mkRat 6 10, 80⟩
      (.ok []) (.ok []) (.raw (.error "x")) (fun _ => .error "p")
      (by decide) (by decide) (by decide) (Or.inl ⟨rfl, rfl⟩)).1,
   (C8_news_degraded ⟨"AAPL", "2024-01-15", 7, [], [], [], [], mkRat 6 10, 80⟩
      (.ok []) (.ok []) (.raw (.error "x")) (fun _ => .error "p")
      (by decide) (by decide) (by decide) (Or.inl ⟨rfl, rfl⟩)).2.1⟩

/-- C8 counterexample: empty streams but a lookback of 31 days — the fallback
record's `lookback_window_days` violates its own `ge=1, le=30` bound, the
pydantic construction of the degraded record raises, and the stage aborts
instead of returning, contrary to the claim's unconditional "returns without
raising". -/
theorem C8_counterexample :
    news_analyst_node ⟨"AAPL", "2024-01-15", 31, [], [], [], [], mkRat 6 10, 80⟩
        (.ok []) (.ok []) (.raw (.error "x")) (fun _ => .error "p") =
      .error "ValidationError" := rfl

/-! ## Claim C9: transcript condensation shapes -/

/-- C9 (amended): every stage's update replaces the transcript — but with
exactly two messages (one request summary, one response summary) only on the
paths that perform the extraction step, successful or parse-fallback; the
data-gathering short-circuit path of the market stage writes a single
response-only message (and the fundamentals short-circuit raises, returning
no update at all).  The bull, bear and supervisor stages always write the
two-message pair. -/
theorem C9_transcript_shapes (dd : String × String) (e : String)
    (mllm : LLMOutcome MarketAnalysisOutput MarketAnalysisOutput.validb)
    (mparse : ParseOracle MarketAnalysisOutput MarketAnalysisOutput.validb)
    (tools : FundCollectors)
    (fllm : LLMOutcome FundamentalAnalysisOutput FundamentalAnalysisOutput.validb)
    (fparse : ParseOracle FundamentalAnalysisOutput FundamentalAnalysisOutput.validb)
    (bllm : LLMOutcome BullCaseOutput BullCaseOutput.validb)
    (bparse : ParseOracle BullCaseOutput BullCaseOutput.validb)
    (ellm : LLMOutcome BearCaseOutput BearCaseOutput.validb)
    (eparse : ParseOracle BearCaseOutput BearCaseOutput.validb)
    (sllm : LLMOutcome SupervisorDecision SupervisorDecision.validb)
    (sparse : ParseOracle SupervisorDecision SupervisorDecision.validb)
    (st : TradingState) :
    msgShape (market_analyst_node (.ok dd) mllm mparse st) =
      some [MessageKind.human, MessageKind.ai] ∧
    msgShape (market_analyst_node (.error e) mllm mparse st) = some [MessageKind.ai] ∧
    ((fundErrors tools).length ≤ 3 →
      msgShape (fundamentals_analyst_node tools fllm fparse st) =
        some [MessageKind.human, MessageKind.ai]) ∧
    (4 ≤ (fundErrors tools).length →
      msgShape (fundamentals_analyst_node tools fllm fparse st) = none) ∧
    msgShape (bull_debater_node bllm bparse st) = some [MessageKind.human, MessageKind.ai] ∧
    msgShape (bear_debater_node ellm eparse st) = some [MessageKind.human, MessageKind.ai] ∧
    msgShape (supervisor_node sllm sparse st) = some [MessageKind.human, MessageKind.ai] := by
  refine ⟨rfl, rfl, ?_, ?_, rfl, rfl, rfl⟩
  · intro h
    simp only [fundamentals_analyst_node]
    rw [if_neg (by omega)]
    rfl
  · intro h
    simp only [fundamentals_analyst_node]
    rw [if_pos h]
    simp [pydanticCheck, fundShortCircuitOutput_validb, msgShape, okUpdate]

/-- Witness for C9. -/
theorem C9_transcript_shapes_witness :
    msgShape (market_analyst_node (.ok ("sd", "td")) (.raw (.error "x"))
        (fun _ => .error "p") (initialState "AAPL" "2024-01-15")) =
      some [MessageKind.human, MessageKind.ai] ∧
    msgShape (fundamentals_analyst_node
        ⟨.ok "o", .ok ("q", "a"), .ok ("q", "a"), .ok ("q", "a"), .ok "e"⟩
        (.raw (.error "x")) (fun _ => .error "p") (initialState "AAPL" "2024-01-15")) =
      some [MessageKind.human, MessageKind.ai] :=
  ⟨(C9_transcript_shapes ("sd", "td") "boom" (.raw (.error "x")) (fun _ => .error "p")
      ⟨.ok "o", .ok ("q", "a"), .ok ("q", "a"), .ok ("q", "a"), .ok "e"⟩
      (.raw (.error "x")) (fun _ => .error "p") (.raw (.error "x")) (fun _ => .error "p")
      (.raw (.error "x")) (fun _ => .error "p") (.raw (.error "x")) (fun _ => .error "p")
      (initialState "AAPL" "2024-01-15")).1,
   (C9_transcript_shapes ("sd", "td") "boom" (.raw (.error "x")) (fun _ => .error "p")
      ⟨.ok "o", .ok ("q", "a"), .ok ("q", "a"), .ok ("q", "a"), .ok "e"⟩
      (.raw (.error "x")) (fun _ => .error "p") (.raw (.error "x")) (fun _ => .error "p")
      (.raw (.error "x")) (fun _ => .error "p") (.raw (.error "x")) (fun _ => .error "p")
      (initialState "AAPL" "2024-01-15")).2.2.1 (by decide)⟩

/-- C9 counterexample: on the market stage's data-fetch-error path the
returned update carries a single `AIMessage` only — not the two-message
request/response pair the claim asserts for every terminal path. -/
theorem C9_counterexample :
    msgShape (market_analyst_node (.error "boom") (.raw (.error "x"))
        (fun _ => .error "p") (initialState "AAPL" "2024-01-15")) =
      some [MessageKind.ai] := rfl

/-! ## Claim C10: no stage writes the identity fields -/

theorem runNodes_preserve
    (nodes : List (String × (TradingState → Except String StateUpdate))) :
    ∀ st : TradingState,
      (∀ p ∈ nodes, ∀ s u, p.2 s = .ok u → u.ticker = none ∧ u.date = none) →
      ∀ st' tr, runNodes nodes st = .ok (st', tr) →
        st'.ticker = st.ticker ∧ st'.date = st.date := by
  induction nodes with
  | nil =>
    intro st _ st' tr hrun
    rw [runNodes] at hrun
    injection hrun with hpair
    injection hpair with h1 h2
    subst h1
    exact ⟨rfl, rfl⟩
  | cons p rest ih =>
    rcases p with ⟨n, f⟩
    intro st hp st' tr hrun
    rw [runNodes] at hrun
    cases hf : f st with
    | error e =>
      simp only [hf] at hrun
      exact Except.noConfusion hrun
    | ok u =>
      simp only [hf] at hrun
      cases hr : runNodes rest (applyUpdate st u) with
      | error e =>
        simp only [hr] at hrun
        exact Except.noConfusion hrun
      | ok pr =>
        rcases pr with ⟨st2, tr2⟩
        simp only [hr] at hrun
        injection hrun with hpair
        injection hpair with h1 h2
        subst h1
        have hu := hp (n, f) (List.mem_cons_self _ _) st u hf
        have happ : (applyUpdate st u).ticker = st.ticker ∧
            (applyUpdate st u).date = st.date := by
          rw [applyUpdate]
          exact ⟨by rw [hu.1]; rfl, by rw [hu.2]; rfl⟩
        have hih := ih (applyUpdate st u)
          (fun q hq => hp q (List.mem_cons_of_mem _ hq)) st2 tr2 hr
        exact ⟨hih.1.trans happ.1, hih.2.trans happ.2⟩

/-- C10: no stage node ever writes the `ticker` or `date` keys — each stage's
partial update leaves them (and every other stage's output keys) unset,
carrying only the transcript and its own output keys — and therefore the
final state of every completed pipeline run carries exactly the ticker and
date the caller supplied. -/
theorem C10_identity_frame :
    (∀ tools llm parse st u, market_analyst_node tools llm parse st = .ok u →
      u.ticker = none ∧ u.date = none ∧ u.fundamental_analysis = none ∧
      u.bull_argument = none ∧ u.bear_argument = none ∧ u.decision = none ∧
      u.rationale = none ∧ u.confidence = none ∧ u.supervisor_decision = none) ∧
    (∀ tools llm parse st u, fundamentals_analyst_node tools llm parse st = .ok u →
      u.ticker = none ∧ u.date = none ∧ u.market_analysis = none ∧
      u.bull_argument = none ∧ u.bear_argument = none ∧ u.decision = none ∧
      u.rationale = none ∧ u.confidence = none ∧ u.supervisor_decision = none) ∧
    (∀ llm parse st u, bull_debater_node llm parse st = .ok u →
      u.ticker = none ∧ u.date = none ∧ u.market_analysis = none ∧
      u.fundamental_analysis = none ∧ u.bear_argument = none ∧ u.decision = none ∧
      u.rationale = none ∧ u.confidence = none ∧ u.supervisor_decision = none) ∧
    (∀ llm parse st u, bear_debater_node llm parse st = .ok u →
      u.ticker = none ∧ u.date = none ∧ u.market_analysis = none ∧
      u.fundamental_analysis = none ∧ u.bull_argument = none ∧ u.decision = none ∧
      u.rationale = none ∧ u.confidence = none ∧ u.supervisor_decision = none) ∧
    (∀ llm parse st u, supervisor_node llm parse st = .ok u →
      u.ticker = none ∧ u.date = none ∧ u.market_analysis = none ∧
      u.fundamental_analysis = none ∧ u.bull_argument = none ∧ u.bear_argument = none) ∧
    (∀ t d o, (runPipeline t d o).isOk = true →
      (resState (runPipeline t d o)).map (fun s => (s.ticker, s.date)) = some (t, d)) := by
  have hmarket : ∀ tools llm parse st u, market_analyst_node tools llm parse st = .ok u →
      u.ticker = none ∧ u.date = none ∧ u.fundamental_analysis = none ∧
      u.bull_argument = none ∧ u.bear_argument = none ∧ u.decision = none ∧
      u.rationale = none ∧ u.confidence = none ∧ u.supervisor_decision = none := by
    intro tools llm parse st u h
    cases tools with
    | error e =>
      simp only [market_analyst_node, pydanticCheck, marketDataErrorOutput_validb,
        if_true, Except.ok.injEq] at h
      rw [← h]
      exact ⟨rfl, rfl, rfl, rfl, rfl, rfl, rfl, rfl, rfl⟩
    | ok dd =>
      simp only [market_analyst_node, Except.ok.injEq] at h
      rw [← h]
      exact ⟨rfl, rfl, rfl, rfl, rfl, rfl, rfl, rfl, rfl⟩
  have hfund : ∀ tools llm parse st u, fundamentals_analyst_node tools llm parse st = .ok u →
      u.ticker = none ∧ u.date = none ∧ u.market_analysis = none ∧
      u.bull_argument = none ∧ u.bear_argument = none ∧ u.decision = none ∧
      u.rationale = none ∧ u.confidence = none ∧ u.supervisor_decision = none := by
    intro tools llm parse st u h
    by_cases h4 : 4 ≤ (fundErrors tools).length
    · simp only [fundamentals_analyst_node] at h
      rw [if_pos h4] at h
      simp [pydanticCheck, fundShortCircuitOutput_validb] at h
    · simp only [fundamentals_analyst_node] at h
      rw [if_neg h4] at h
      simp only [Except.ok.injEq] at h
      rw [← h]
      exact ⟨rfl, rfl, rfl, rfl, rfl, rfl, rfl, rfl, rfl⟩
  have hbull : ∀ llm parse st u, bull_debater_node llm parse st = .ok u →
      u.ticker = none ∧ u.date = none ∧ u.market_analysis = none ∧
      u.fundamental_analysis = none ∧ u.bear_argument = none ∧ u.decision = none ∧
      u.rationale = none ∧ u.confidence = none ∧ u.supervisor_decision = none := by
    intro llm parse st u h
    simp only [bull_debater_node, Except.ok.injEq] at h
    rw [← h]
    exact ⟨rfl, rfl, rfl, rfl, rfl, rfl, rfl, rfl, rfl⟩
  have hbear : ∀ llm parse st u, bear_debater_node llm parse st = .ok u →
      u.ticker = none ∧ u.date = none ∧ u.market_analysis = none ∧
      u.fundamental_analysis = none ∧ u.bull_argument = none ∧ u.decision = none ∧
      u.rationale = none ∧ u.confidence = none ∧ u.supervisor_decision = none := by
    intro llm parse st u h
    simp only [bear_debater_node, Except.ok.injEq] at h
    rw [← h]
    exact ⟨rfl, rfl, rfl, rfl, rfl, rfl, rfl, rfl, rfl⟩
  have hsup : ∀ llm parse st u, supervisor_node llm parse st = .ok u →
      u.ticker = none ∧ u.date = none ∧ u.market_analysis = none ∧
      u.fundamental_analysis = none ∧ u.bull_argument = none ∧ u.bear_argument = none := by
    intro llm parse st u h
    simp only [supervisor_node, Except.ok.injEq] at h
    rw [← h]
    exact ⟨rfl, rfl, rfl, rfl, rfl, rfl⟩
  refine ⟨hmarket, hfund, hbull, hbear, hsup, ?_⟩
  intro t d o h
  cases hrun : runPipeline t d o with
  | error e =>
    rw [hrun] at h
    simp [Except.isOk, Except.toBool] at h
  | ok pr =>
    rcases pr with ⟨stF, trF⟩
    have hnodes : ∀ p ∈ pipelineNodes o, ∀ s u, p.2 s = .ok u →
        u.ticker = none ∧ u.date = none := by
      intro p hp s u hf
      simp only [pipelineNodes, List.mem_cons, List.not_mem_nil, or_false] at hp
      rcases hp with rfl | rfl | rfl | rfl | rfl
      · have := hmarket o.marketTools o.marketLLM o.marketParse s u hf
        exact ⟨this.1, this.2.1⟩
      · have := hfund o.fundTools o.fundLLM o.fundParse s u hf
        exact ⟨this.1, this.2.1⟩
      · have := hbull o.bullLLM o.bullParse s u hf
        exact ⟨this.1, this.2.1⟩
      · have := hbear o.bearLLM o.bearParse s u hf
        exact ⟨this.1, this.2.1⟩
      · have := hsup o.supLLM o.supParse s u hf
        exact ⟨this.1, this.2.1⟩
    have hpres := runNodes_preserve (pipelineNodes o) (initialState t d) hnodes stF trF hrun
    have hres : (resState (Except.ok (stF, trF))).map (fun s => (s.ticker, s.date)) =
        some (stF.ticker, stF.date) := rfl
    rw [hres, hpres.1, hpres.2]
    rfl

/-- Witness for C10: a full concrete run preserves ticker and date. -/
theorem C10_identity_frame_witness :
    (resState (runPipeline "AAPL" "2024-01-15"
        ⟨.ok ("sd", "td"), .raw (.error "x"), fun _ => .error "p",
         ⟨.ok "o", .ok ("q", "a"), .ok ("q", "a"), .ok ("q", "a"), .ok "e"⟩,
         .raw (.error "x"), fun _ => .error "p",
         .raw (.error "x"), fun _ => .error "p",
         .raw (.error "x"), fun _ => .error "p",
         .raw (.error "x"), fun _ => .error "p"⟩)).map (fun s => (s.ticker, s.date)) =
      some ("AAPL", "2024-01-15") :=
  C10_identity_frame.2.2.2.2.2 "AAPL" "2024-01-15"
    ⟨.ok ("sd", "td"), .raw (.error "x"), fun _ => .error "p",
     ⟨.ok "o", .ok ("q", "a"), .ok ("q", "a"), .ok ("q", "a"), .ok "e"⟩,
     .raw (.error "x"), fun _ => .error "p",
     .raw (.error "x"), fun _ => .error "p",
     .raw (.error "x"), fun _ => .error "p",
     .raw (.error "x"), fun _ => .error "p"⟩ rfl

/-! ## Claim C2: the five-stage run -/

theorem extract_sup_consensus_mem
    (llm : LLMOutcome SupervisorDecision SupervisorDecision.validb)
    (parse : ParseOracle SupervisorDecision SupervisorDecision.validb) (tkr : String) :
    (extractWith llm parse (supParseFallback tkr)).consensus_direction ∈ consensusLabels := by
  have hvalid : ∀ r : SupervisorDecision, r.validb = true →
      r.consensus_direction ∈ consensusLabels := by
    intro r hr
    simp only [SupervisorDecision.validb, Bool.and_eq_true] at hr
    simpa using hr.1.1.1.1.1.2
  cases llm with
  | structured r =>
    cases r with
    | ok v => exact hvalid v.1 v.2
    | error e => show "neutral" ∈ consensusLabels; simp [consensusLabels]
  | raw r =>
    cases r with
    | ok t =>
      cases hp : parse (stripFencesV2 t.data) with
      | ok v =>
        simp only [extractWith, hp]
        exact hvalid v.1 v.2
      | error e =>
        simp only [extractWith, hp]
        show "neutral" ∈ consensusLabels
        simp [consensusLabels]
    | error e => show "neutral" ∈ consensusLabels; simp [consensusLabels]

theorem market_node_shape (tools : Except String (String × String))
    (llm : LLMOutcome MarketAnalysisOutput MarketAnalysisOutput.validb)
    (parse : ParseOracle MarketAnalysisOutput MarketAnalysisOutput.validb)
    (st : TradingState) :
    ∃ msgs s1, market_analyst_node tools llm parse st =
      .ok { messages := some msgs, market_analysis := some s1 } ∧ s1 ≠ "" := by
  cases tools with
  | error e =>
    refine ⟨[.ai ("Market Analysis for " ++ st.ticker ++ ":\n" ++
        (marketDataErrorOutput st.ticker e).dumps)],
      (marketDataErrorOutput st.ticker e).dumps, ?_,
      marketDumps_ne_empty (marketDataErrorOutput st.ticker e)⟩
    simp [market_analyst_node, pydanticCheck, marketDataErrorOutput_validb]
  | ok dd =>
    exact ⟨_, _, rfl, marketDumps_ne_empty
      (extractWith llm parse (marketParseFallback st.ticker))⟩

theorem fund_node_shape (tools : FundCollectors)
    (llm : LLMOutcome FundamentalAnalysisOutput FundamentalAnalysisOutput.validb)
    (parse : ParseOracle FundamentalAnalysisOutput FundamentalAnalysisOutput.validb)
    (st : TradingState) :
    fundamentals_analyst_node tools llm parse st = .error "ValidationError" ∨
    ∃ msgs s2, fundamentals_analyst_node tools llm parse st =
      .ok { messages := some msgs, fundamental_analysis := some s2 } ∧ s2 ≠ "" := by
  by_cases h4 : 4 ≤ (fundErrors tools).length
  · left
    simp only [fundamentals_analyst_node]
    rw [if_pos h4]
    simp [pydanticCheck, fundShortCircuitOutput_validb]
  · right
    refine ⟨[.human ("Perform fundamental analysis for " ++ st.ticker ++ " as of " ++ st.date),
        .ai ("Fundamental Analysis for " ++ st.ticker ++ ":\n\n" ++
          (extractWith llm parse (fundParseFallback st.ticker)).dumps)],
      (extractWith llm parse (fundParseFallback st.ticker)).dumps, ?_,
      fundDumps_ne_empty
        (extractWith llm parse (fundParseFallback st.ticker))⟩
    simp only [fundamentals_analyst_node]
    rw [if_neg h4]

theorem bull_node_shape (llm : LLMOutcome BullCaseOutput BullCaseOutput.validb)
    (parse : ParseOracle BullCaseOutput BullCaseOutput.validb) (st : TradingState) :
    ∃ msgs s3, bull_debater_node llm parse st =
      .ok { messages := some msgs, bull_argument := some s3 } ∧ s3 ≠ "" :=
  ⟨_, _, rfl, bullDumps_ne_empty
    (extractWith llm parse (bullParseFallback st.ticker))⟩

theorem bear_node_shape (llm : LLMOutcome BearCaseOutput BearCaseOutput.validb)
    (parse : ParseOracle BearCaseOutput BearCaseOutput.validb) (st : TradingState) :
    ∃ msgs s4, bear_debater_node llm parse st =
      .ok { messages := some msgs, bear_argument := some s4 } ∧ s4 ≠ "" :=
  ⟨_, _, rfl, bearDumps_ne_empty
    (extractWith llm parse (bearParseFallback st.ticker))⟩

theorem sup_node_shape (llm : LLMOutcome SupervisorDecision SupervisorDecision.validb)
    (parse : ParseOracle SupervisorDecision SupervisorDecision.validb) (st : TradingState) :
    ∃ msgs s5, supervisor_node llm parse st =
      .ok { messages := some msgs,
            decision := some (extractWith llm parse
              (supParseFallback st.ticker)).consensus_direction,
            rationale := some (extractWith llm parse
              (supParseFallback st.ticker)).executive_summary,
            confidence := some (extractWith llm parse
              (supParseFallback st.ticker)).final_confidence,
            supervisor_decision := some s5 } ∧ s5 ≠ "" :=
  ⟨_, _, rfl, supDumps_ne_empty
    (extractWith llm parse (supParseFallback st.ticker))⟩

/-- C2: a completed pipeline run executes exactly the five stages in the
fixed order market analyst → fundamentals analyst → bull debater → bear
debater → supervisor, each once, and the final state carries five non-empty
serialized stage records and a decision label drawn from
{bullish, bearish, neutral, mixed}. -/
theorem C2_pipeline_run (t d : String) (o : Oracles)
    (h : (runPipeline t d o).isOk = true) :
    resTrace (runPipeline t d o) =
      some ["market_analyst", "fundamentals_analyst", "bull_debater", "bear_debater",
        "supervisor"] ∧
    finalStateOK (resState (runPipeline t d o)) := by
  obtain ⟨m1, s1, hm, hs1⟩ :=
    market_node_shape o.marketTools o.marketLLM o.marketParse (initialState t d)
  rcases fund_node_shape o.fundTools o.fundLLM o.fundParse
      (applyUpdate (initialState t d) { messages := some m1, market_analysis := some s1 })
    with hferr | ⟨m2, s2, hf, hs2⟩
  · have hbad : runPipeline t d o = .error "ValidationError" := by
      simp only [runPipeline, pipelineNodes, runNodes, hm, hferr]
    rw [hbad] at h
    simp [Except.isOk, Except.toBool] at h
  · obtain ⟨m3, s3, hb, hs3⟩ := bull_node_shape o.bullLLM o.bullParse
      (applyUpdate (applyUpdate (initialState t d)
        { messages := some m1, market_analysis := some s1 })
        { messages := some m2, fundamental_analysis := some s2 })
    obtain ⟨m4, s4, hbe, hs4⟩ := bear_node_shape o.bearLLM o.bearParse
      (applyUpdate (applyUpdate (applyUpdate (initialState t d)
        { messages := some m1, market_analysis := some s1 })
        { messages := some m2, fundamental_analysis := some s2 })
        { messages := some m3, bull_argument := some s3 })
    obtain ⟨m5, s5, hsup, hs5⟩ := sup_node_shape o.supLLM o.supParse
      (applyUpdate (applyUpdate (applyUpdate (applyUpdate (initialState t d)
        { messages := some m1, market_analysis := some s1 })
        { messages := some m2, fundamental_analysis := some s2 })
        { messages := some m3, bull_argument := some s3 })
        { messages := some m4, bear_argument := some s4 })
    have hrun : runPipeline t d o = .ok
        (applyUpdate (applyUpdate (applyUpdate (applyUpdate (applyUpdate (initialState t d)
          { messages := some m1, market_analysis := some s1 })
          { messages := some m2, fundamental_analysis := some s2 })
          { messages := some m3, bull_argument := some s3 })
          { messages := some m4, bear_argument := some s4 })
          { messages := some m5,
            decision := some (extractWith o.supLLM o.supParse (supParseFallback
              (applyUpdate (applyUpdate (applyUpdate (applyUpdate (initialState t d)
                { messages := some m1, market_analysis := some s1 })
                { messages := some m2, fundamental_analysis := some s2 })
                { messages := some m3, bull_argument := some s3 })
                { messages := some m4, bear_argument := some s4 }).ticker)).consensus_direction,
            rationale := some (extractWith o.supLLM o.supParse (supParseFallback
              (applyUpdate (applyUpdate (applyUpdate (applyUpdate (initialState t d)
                { messages := some m1, market_analysis := some s1 })
                { messages := some m2, fundamental_analysis := some s2 })
                { messages := some m3, bull_argument := some s3 })
                { messages := some m4, bear_argument := some s4 }).ticker)).executive_summary,
            confidence := some (extractWith o.supLLM o.supParse (supParseFallback
              (applyUpdate (applyUpdate (applyUpdate (applyUpdate (initialState t d)
                { messages := some m1, market_analysis := some s1 })
                { messages := some m2, fundamental_analysis := some s2 })
                { messages := some m3, bull_argument := some s3 })
                { messages := some m4, bear_argument := some s4 }).ticker)).final_confidence,
            supervisor_decision := some s5 },
         ["market_analyst", "fundamentals_analyst", "bull_debater", "bear_debater",
          "supervisor"]) := by
      simp only [runPipeline, pipelineNodes, runNodes, hm, hf, hb, hbe, hsup]
    refine ⟨by rw [hrun]; rfl, ?_⟩
    rw [hrun]
    show finalStateOK (some _)
    simp only [finalStateOK, applyUpdate, initialState, Option.getD]
    exact ⟨hs1, hs2, hs3, hs4, hs5, extract_sup_consensus_mem _ _ _⟩

/-- Witness for C2: a full concrete run (all extraction oracles failing, so
every stage lands on its fallback; all collectors succeed). -/
theorem C2_pipeline_run_witness :
    (runPipeline "AAPL" "2024-01-15"
        ⟨.ok ("sd", "td"), .raw (.error "x"), fun _ => .error "p",
         ⟨.ok "o", .ok ("q", "a"), .ok ("q", "a"), .ok ("q", "a"), .ok "e"⟩,
         .raw (.error "x"), fun _ => .error "p",
         .raw (.error "x"), fun _ => .error "p",
         .raw (.error "x"), fun _ => .error "p",
         .raw (.error "x"), fun _ => .error "p"⟩).isOk = true ∧
    (resTrace (runPipeline "AAPL" "2024-01-15"
        ⟨.ok ("sd", "td"), .raw (.error "x"), fun _ => .error "p",
         ⟨.ok "o", .ok ("q", "a"), .ok ("q", "a"), .ok ("q", "a"), .ok "e"⟩,
         .raw (.error "x"), fun _ => .error "p",
         .raw (.error "x"), fun _ => .error "p",
         .raw (.error "x"), fun _ => .error "p",
         .raw (.error "x"), fun _ => .error "p"⟩) =
      some ["market_analyst", "fundamentals_analyst", "bull_debater", "bear_debater",
        "supervisor"] ∧
     finalStateOK (resState (runPipeline "AAPL" "2024-01-15"
        ⟨.ok ("sd", "td"), .raw (.error "x"), fun _ => .error "p",
         ⟨.ok "o", .ok ("q", "a"), .ok ("q", "a"), .ok ("q", "a"), .ok "e"⟩,
         .raw (.error "x"), fun _ => .error "p",
         .raw (.error "x"), fun _ => .error "p",
         .raw (.error "x"), fun _ => .error "p",
         .raw (.error "x"), fun _ => .error "p"⟩))) :=
  ⟨rfl, C2_pipeline_run "AAPL" "2024-01-15"
    ⟨.ok ("sd", "td"), .raw (.error "x"), fun _ => .error "p",
     ⟨.ok "o", .ok ("q", "a"), .ok ("q", "a"), .ok ("q", "a"), .ok "e"⟩,
     .raw (.error "x"), fun _ => .error "p",
     .raw (.error "x"), fun _ => .error "p",
     .raw (.error "x"), fun _ => .error "p",
     .raw (.error "x"), fun _ => .error "p"⟩ rfl⟩
